import Mathlib

/-!
OVAL system items (`src/OVAL/oval_sysItem.c`).

A shallow embedding of the system-item entity of the OVAL library: the record,
its lock-guarded mutators, the validity check, clone, the tag-dispatch parser
and the DOM serializer, with theorems about them.

C objects live in a heap and are designated by pointers.  A pointer is an index
into the heap (`Nat`); a pointer that may be `NULL` is an `Option Nat`.  Strings
that may be `NULL` are `Option String`.  Entries (`struct oval_sysent`) belong to
the entry collaborator and are values of a type `E` the development is
parametric in.
-/

namespace OvalSysItem

/-! ## Data model -/

/-- The subtype enumeration `oval_subtype_t`: an open vocabulary of integer
codes declared outside this file. -/
abbrev oval_subtype_t := Nat

/-- Modelled from the spec: the enumerator `OVAL_SUBTYPE_UNKNOWN`, declared in a
header that is not part of the sources.  It is the zero code: the serializer
tests it with `if (subtype)`. -/
def OVAL_SUBTYPE_UNKNOWN : oval_subtype_t := 0

/-- The family enumeration `oval_family_t` of the vocabulary tables. -/
abbrev oval_family_t := Nat

/-- Modelled from the spec: `message_level` is one of none, info, warning,
error, fatal (the enumeration `oval_message_level_t` is declared in a header). -/
inductive oval_message_level_t where
  | OVAL_MESSAGE_LEVEL_NONE
  | OVAL_MESSAGE_LEVEL_INFO
  | OVAL_MESSAGE_LEVEL_WARNING
  | OVAL_MESSAGE_LEVEL_ERROR
  | OVAL_MESSAGE_LEVEL_FATAL
  deriving DecidableEq, Repr

/-- Modelled from the spec: `status` is one of exists, does-not-exist, error,
not-collected, not-applicable, unknown (the enumeration `oval_syschar_status_t`
is declared in a header). -/
inductive oval_syschar_status_t where
  | SYSCHAR_STATUS_UNKNOWN
  | SYSCHAR_STATUS_ERROR
  | SYSCHAR_STATUS_EXISTS
  | SYSCHAR_STATUS_DOES_NOT_EXIST
  | SYSCHAR_STATUS_NOT_COLLECTED
  | SYSCHAR_STATUS_NOT_APPLICABLE
  deriving DecidableEq, Repr

open oval_message_level_t oval_syschar_status_t

/-- The record `struct oval_sysitem` (lines 39-48).  `model` is the back
pointer to the owning model, `items` the collection of entries in append
order. -/
structure oval_sysitem (E : Type) where
  model : Option Nat
  subtype : oval_subtype_t
  message_level : oval_message_level_t
  id : Option String
  message : Option String
  items : List E
  status : oval_syschar_status_t
  deriving DecidableEq, Repr

/-- Modelled from the spec: the owning model container, which is not part of
the sources.  It provides the lock flag and an id-keyed registry of item
pointers. -/
structure oval_syschar_model where
  is_locked : Bool
  sysitem_map : List (Option String × Nat)
  deriving DecidableEq, Repr

/-- The heap: the models and the system items allocated so far, each designated
by its index, and whether the allocator is exhausted (`oscap_alloc` then
returns `NULL`). -/
structure Heap (E : Type) where
  models : List oval_syschar_model
  sysitems : List (oval_sysitem E)
  out_of_memory : Bool
  deriving DecidableEq, Repr

/-- Modelled from the spec: `oscap_strdup` yields a copy of the caller's string,
stored verbatim. -/
def oscap_strdup (s : String) : String := s

/-! ## The owning model (external) -/

/-- Modelled from the spec: `oval_syschar_model_is_locked`, the owning model's
`is_locked() -> bool`, reads the lock flag.  The spec gives no lock flag to an
absent model: for `NULL`, and for a pointer that designates no model, the flag
reads as unset. -/
def oval_syschar_model_is_locked {E : Type} (h : Heap E) (model : Option Nat) : Bool :=
  match model with
  | none => false
  | some m =>
    match h.models[m]? with
    | none => false
    | some md => md.is_locked

/-- Modelled from the spec: insertion into the id-keyed registry.  An id is
unique within the registry, so a binding for the same id is replaced. -/
def sysitem_map_put (map : List (Option String × Nat)) (id : Option String) (p : Nat) :
    List (Option String × Nat) :=
  map.filter (fun e => decide (e.1 ≠ id)) ++ [(id, p)]

/-- Modelled from the spec: lookup in the id-keyed registry. -/
def sysitem_map_get (map : List (Option String × Nat)) (id : Option String) : Option Nat :=
  match map with
  | [] => none
  | e :: rest => if e.1 = id then some e.2 else sysitem_map_get rest id

/-- Modelled from the spec: `oval_syschar_model_add_sysitem`, the owning model's
`register(item)`: the item is entered into the model's item index under its
id. -/
def oval_syschar_model_add_sysitem {E : Type} (h : Heap E) (model : Option Nat) (sysitem : Nat) :
    Heap E :=
  match model with
  | none => h
  | some m =>
    match h.models[m]?, h.sysitems[sysitem]? with
    | some md, some it =>
      { h with models := h.models.set m { md with sysitem_map := sysitem_map_put md.sysitem_map it.id sysitem } }
    | _, _ => h

/-- Modelled from the spec: the registry lookup by id
(`oval_syschar_model_get_sysitem`), the "get" half of get-or-create. -/
def oval_syschar_model_get_sysitem {E : Type} (h : Heap E) (model : Option Nat) (id : Option String) :
    Option Nat :=
  match model with
  | none => none
  | some m =>
    match h.models[m]? with
    | none => none
    | some md => sysitem_map_get md.sysitem_map id

/-! ## The entity: creation, accessors and lock-guarded mutators -/

/-- Creation, `oval_sysitem_new` (lines 50-74): refused on a locked model and
when allocation fails; otherwise a new item with the default fields is
allocated and registered in the model.  The id is copied; a `NULL` id stays
`NULL`. -/
def oval_sysitem_new {E : Type} (h : Heap E) (model : Option Nat) (id : Option String) :
    Heap E × Option Nat :=
  if model.isSome && oval_syschar_model_is_locked h model then
    (h, none)
  else if h.out_of_memory then
    (h, none)
  else
    let p := h.sysitems.length
    let sysitem : oval_sysitem E :=
      { id := id.map oscap_strdup
        message_level := OVAL_MESSAGE_LEVEL_NONE
        subtype := OVAL_SUBTYPE_UNKNOWN
        status := SYSCHAR_STATUS_UNKNOWN
        message := none
        items := []
        model := model }
    let h1 : Heap E := { h with sysitems := h.sysitems ++ [sysitem] }
    (oval_syschar_model_add_sysitem h1 model p, some p)

/-- Lock query, `oval_sysitem_is_locked` (lines 109-114): the lock flag of the
model the item points back to. -/
def oval_sysitem_is_locked {E : Type} (h : Heap E) (sysitem : oval_sysitem E) : Bool :=
  oval_syschar_model_is_locked h sysitem.model

/-- Accessor `oval_sysitem_get_subtype` (lines 175-180). -/
def oval_sysitem_get_subtype {E : Type} (sysitem : oval_sysitem E) : oval_subtype_t :=
  sysitem.subtype

/-- Accessor `oval_sysitem_get_id` (lines 190-193). -/
def oval_sysitem_get_id {E : Type} (data : oval_sysitem E) : Option String :=
  data.id

/-- Accessor `oval_sysitem_get_message` (lines 195-198). -/
def oval_sysitem_get_message {E : Type} (data : oval_sysitem E) : Option String :=
  data.message

/-- Accessor `oval_sysitem_get_message_level` (lines 210-215). -/
def oval_sysitem_get_message_level {E : Type} (data : oval_sysitem E) : oval_message_level_t :=
  data.message_level

/-- Accessor `oval_sysitem_get_items` (lines 225-228): an iterator over the
entries, in collection order. -/
def oval_sysitem_get_items {E : Type} (data : oval_sysitem E) : List E :=
  data.items

/-- Accessor `oval_sysitem_get_status` (lines 238-243). -/
def oval_sysitem_get_status {E : Type} (data : oval_sysitem E) : oval_syschar_status_t :=
  data.status

/-- Store through an item pointer: the item at `p` is replaced. -/
def Heap.store {E : Type} (h : Heap E) (p : Nat) (it : oval_sysitem E) : Heap E :=
  { h with sysitems := h.sysitems.set p it }

/-- Mutator `oval_sysitem_set_subtype` (lines 182-188): writes the field when
the item is not `NULL` and not locked; otherwise only a diagnostic is
printed. -/
def oval_sysitem_set_subtype {E : Type} (h : Heap E) (sysitem : Option Nat) (subtype : oval_subtype_t) :
    Heap E :=
  match sysitem with
  | none => h
  | some p =>
    match h.sysitems[p]? with
    | none => h
    | some it =>
      if !oval_sysitem_is_locked h it then h.store p { it with subtype := subtype } else h

/-- A `char *` argument handed to a call on an item: `NULL`, a buffer of its own
holding a text, or the pointer to the message buffer that very item owns at the
time of the call (what `oval_sysitem_get_message` returns for it). -/
inductive char_ptr where
  | null
  | buffer (text : String)
  | own_message
  deriving DecidableEq, Repr

/-- Mutator `oval_sysitem_set_message` (lines 200-208): on an unlocked item the
previous message is freed first (lines 203-204) and then a copy of the
argument is stored (line 205).  When the argument is the item's own message
pointer, the copy reads the buffer that was just freed: the behaviour is
undefined and the call has no result (`none`).  An own-message pointer of an
item without message is `NULL`. -/
def oval_sysitem_set_message {E : Type} (h : Heap E) (data : Option Nat) (message : char_ptr) :
    Option (Heap E) :=
  match data with
  | none => some h
  | some p =>
    match h.sysitems[p]? with
    | none => some h
    | some it =>
      if !oval_sysitem_is_locked h it then
        match message with
        | char_ptr.null => some (h.store p { it with message := none })
        | char_ptr.buffer text => some (h.store p { it with message := some (oscap_strdup text) })
        | char_ptr.own_message =>
          match it.message with
          | none => some (h.store p { it with message := none })
          | some _ => none
      else some h

/-- Mutator `oval_sysitem_set_message_level` (lines 217-223). -/
def oval_sysitem_set_message_level {E : Type} (h : Heap E) (data : Option Nat)
    (level : oval_message_level_t) : Heap E :=
  match data with
  | none => h
  | some p =>
    match h.sysitems[p]? with
    | none => h
    | some it =>
      if !oval_sysitem_is_locked h it then h.store p { it with message_level := level } else h

/-- Mutator `oval_sysitem_add_item` (lines 230-236): `oval_collection_add`
appends the entry at the end of the collection. -/
def oval_sysitem_add_item {E : Type} (h : Heap E) (data : Option Nat) (item : E) : Heap E :=
  match data with
  | none => h
  | some p =>
    match h.sysitems[p]? with
    | none => h
    | some it =>
      if !oval_sysitem_is_locked h it then h.store p { it with items := it.items ++ [item] } else h

/-- Mutator `oval_sysitem_set_status` (lines 245-251). -/
def oval_sysitem_set_status {E : Type} (h : Heap E) (data : Option Nat)
    (status : oval_syschar_status_t) : Heap E :=
  match data with
  | none => h
  | some p =>
    match h.sysitems[p]? with
    | none => h
    | some it =>
      if !oval_sysitem_is_locked h it then h.store p { it with status := status } else h

/-! ## XML primitives (libxml2) -/

/-- An XML element, as the reader presents it and as the DOM writer builds it:
its namespace URI (`NULL` when it has none), the namespace URIs declared on it,
its local name, its attributes in the order they were set, its text content
and its child elements in document order. -/
inductive xmlNode where
  | element (ns : Option String) (nsDef : List String) (name : String)
      (properties : List (String × String)) (content : String) (children : List xmlNode)

namespace xmlNode

/-- Namespace URI of the element. -/
def ns : xmlNode → Option String
  | element ns _ _ _ _ _ => ns

/-- Namespace URIs declared on the element. -/
def nsDef : xmlNode → List String
  | element _ nsDef _ _ _ _ => nsDef

/-- Local name of the element. -/
def name : xmlNode → String
  | element _ _ name _ _ _ => name

/-- Attributes of the element. -/
def properties : xmlNode → List (String × String)
  | element _ _ _ properties _ _ => properties

/-- Text content of the element. -/
def content : xmlNode → String
  | element _ _ _ _ content _ => content

/-- Child elements, in document order. -/
def children : xmlNode → List xmlNode
  | element _ _ _ _ _ children => children

end xmlNode

/-- The part of the document (`xmlDoc`) the serializer consults: the namespace
URIs declared on the ancestors of the node it is handed. -/
structure xmlDoc where
  nsInScope : List String

/-- The libxml2 search `xmlSearchNsByHref`: the namespace with the given URI
when it is declared on the node or on one of its ancestors, `NULL` otherwise. -/
def xmlSearchNsByHref (doc : xmlDoc) (node : xmlNode) (href : String) : Option String :=
  if href ∈ node.nsDef ∨ href ∈ doc.nsInScope then some href else none

/-- The element `xmlNewChild` creates under `parent`: with a `NULL` namespace
it inherits the namespace of the parent.  The content is not stored as given:
libxml2 reads it as XML character data in which entity references are
interpreted (`xmlStringGetNodeList`), so the text of the element is
`xmlStringGetNodeList content`; a `NULL` content is no text. -/
def xmlNewNode (xmlStringGetNodeList : String → String) (parent : xmlNode) (ns : Option String)
    (name : String) (content : Option String) : xmlNode :=
  xmlNode.element (match ns with
                   | some href => some href
                   | none => parent.ns) [] name []
    (match content with
     | some text => xmlStringGetNodeList text
     | none => "") []

/-- The linking half of `xmlNewChild`: the child becomes the last child of
the parent. -/
def xmlAddChild (parent child : xmlNode) : xmlNode :=
  match parent with
  | xmlNode.element ns nsDef name properties content children =>
    xmlNode.element ns nsDef name properties content (children ++ [child])

/-- The libxml2 call `xmlNewNs` with no prefix: declares the namespace on the
node. -/
def xmlNewNs (node : xmlNode) (href : String) : xmlNode :=
  match node with
  | xmlNode.element ns nsDef name properties content children =>
    xmlNode.element ns (nsDef ++ [href]) name properties content children

/-- The libxml2 call `xmlSetNs`: the node is put in the namespace. -/
def xmlSetNs (node : xmlNode) (ns : Option String) : xmlNode :=
  match node with
  | xmlNode.element _ nsDef name properties content children =>
    xmlNode.element ns nsDef name properties content children

/-- The libxml2 call `xmlNewProp`: a new attribute at the end of the node's
attributes; a `NULL` value is an attribute that reads back as the empty
string. -/
def xmlNewProp (node : xmlNode) (name : String) (value : Option String) : xmlNode :=
  match node with
  | xmlNode.element ns nsDef nm properties content children =>
    xmlNode.element ns nsDef nm (properties ++ [(name, value.getD "")]) content children

/-- Attribute lookup on a list of attributes: the first one of that name. -/
def xmlGetProp (properties : List (String × String)) (name : String) : Option String :=
  match properties with
  | [] => none
  | a :: rest => if a.1 = name then some a.2 else xmlGetProp rest name

/-- The reader call `xmlTextReaderGetAttribute` on the element the reader is
positioned at: the value of the attribute, `NULL` when it is absent. -/
def xmlTextReaderGetAttribute (reader : xmlNode) (name : String) : Option String :=
  xmlGetProp reader.properties name

/-- The reader call `xmlTextReaderLocalName`. -/
def xmlTextReaderLocalName (reader : xmlNode) : String := reader.name

/-- The reader call `xmlTextReaderNamespaceUri`. -/
def xmlTextReaderNamespaceUri (reader : xmlNode) : Option String := reader.ns

/-! ## Collaborators: vocabulary tables and the entry sub-entity -/

/-- Modelled from the spec: the reserved system-characteristics namespace the
parser compares child namespaces with (macro `NAMESPACE_OVALSYS`, declared in a
header). -/
def NAMESPACE_OVALSYS : String :=
  "http://oval.mitre.org/XMLSchema/oval-system-characteristics-5"

/-- Modelled from the spec: the fixed base system-characteristics namespace of
the serializer (macro `OVAL_SYSCHAR_NAMESPACE`, declared in a header); the same
literal as the local `syschar_namespace` of line 395. -/
def OVAL_SYSCHAR_NAMESPACE : String :=
  "http://oval.mitre.org/XMLSchema/oval-system-characteristics-5"

/-- The external collaborators, taken as parameters: the vocabulary tables
(subtype lookup by namespace and local name, family and text of a subtype, the
status and message-level text tables in both directions), the entry
sub-entity (validity, clone, DOM emission under a parent, and the entry a
parsed element yields), and the text libxml2 builds from a content string
(`xmlStringGetNodeList`, which interprets entity references). -/
structure Collaborators (E : Type) where
  xmlStringGetNodeList : String → String
  subtype_from_tag : Option String → String → oval_subtype_t
  oval_subtype_get_family : oval_subtype_t → oval_family_t
  oval_family_get_text : oval_family_t → String
  oval_subtype_get_text : oval_subtype_t → String
  oval_syschar_status_get_text : oval_syschar_status_t → String
  syschar_status_from_text : String → Option oval_syschar_status_t
  oval_message_level_text : oval_message_level_t → String
  message_level_from_text : String → Option oval_message_level_t
  oval_sysent_is_valid : E → Bool
  oval_sysent_clone : Option Nat → E → E
  oval_sysent_to_dom : E → xmlDoc → xmlNode → xmlNode
  sysent_from_tag : xmlNode → E

/-- The parser context `struct oval_parser_context`: the model being
populated. -/
structure oval_parser_context where
  syschar_model : Option Nat

/-! ## Validity and clone -/

/-- The entry loop of the validity check (lines 93-101): stops at the first
entry that is not valid. -/
def oval_sysitem_is_valid.loop {E : Type} (C : Collaborators E) : List E → Bool → Bool
  | [], is_valid => is_valid
  | sysent :: rest, is_valid =>
    if C.oval_sysent_is_valid sysent != true then false
    else oval_sysitem_is_valid.loop C rest is_valid

/-- Validity check `oval_sysitem_is_valid` (lines 76-107), with the heap it
leaves behind. -/
def oval_sysitem_is_valid {E : Type} (C : Collaborators E) (h : Heap E) (sysitem : Option Nat) :
    Bool × Heap E :=
  match sysitem with
  | none => (false, h)
  | some p =>
    match h.sysitems[p]? with
    | none => (false, h)
    | some it =>
      if oval_sysitem_get_subtype it = OVAL_SUBTYPE_UNKNOWN then (false, h)
      else
        let is_valid := oval_sysitem_is_valid.loop C (oval_sysitem_get_items it) true
        if is_valid != true then (false, h) else (true, h)

/-- Deep copy `oval_sysitem_clone` (lines 116-137) of the item at `old_data`
into `new_model`.  The new item is a fresh allocation, so the source item is
read once; the message handed to `oval_sysitem_set_message` is the fresh
copy `oscap_strdup(old_message)`.  The result is `none` when a call has no
defined result. -/
def oval_sysitem_clone {E : Type} (C : Collaborators E) (h : Heap E) (new_model : Option Nat)
    (old_data : Nat) : Option (Heap E × Option Nat) :=
  match h.sysitems[old_data]? with
  | none => some (h, none)
  | some old =>
    let r := oval_sysitem_new h new_model (oval_sysitem_get_id old)
    let new_data := r.2
    let h2 : Option (Heap E) :=
      match oval_sysitem_get_message old with
      | some old_message =>
        match oval_sysitem_set_message r.1 new_data (char_ptr.buffer (oscap_strdup old_message)) with
        | some h1 =>
          some (oval_sysitem_set_message_level h1 new_data (oval_sysitem_get_message_level old))
        | none => none
      | none => some r.1
    match h2 with
    | none => none
    | some h2 =>
      let h3 := oval_sysitem_set_status h2 new_data (oval_sysitem_get_status old)
      let h4 := oval_sysitem_set_subtype h3 new_data (oval_sysitem_get_subtype old)
      let h5 := (oval_sysitem_get_items old).foldl
        (fun hh old_item => oval_sysitem_add_item hh new_data (C.oval_sysent_clone new_model old_item))
        h4
      some (h5, new_data)

/-! ## Parser -/

/-- Modelled from the spec: `oval_sysitem_get_new`, the owning model's
`get_or_create_item(id)`: an item already registered under the id is reused,
otherwise one is created. -/
def oval_sysitem_get_new {E : Type} (h : Heap E) (model : Option Nat) (id : Option String) :
    Heap E × Option Nat :=
  match oval_syschar_model_get_sysitem h model id with
  | some p => (h, some p)
  | none => oval_sysitem_new h model id

/-- Modelled from the spec: `oval_subtype_parse`, the vocabulary lookup of the
element under the reader, keyed by namespace and local name. -/
def oval_subtype_parse {E : Type} (C : Collaborators E) (reader : xmlNode) : oval_subtype_t :=
  C.subtype_from_tag (xmlTextReaderNamespaceUri reader) (xmlTextReaderLocalName reader)

/-- Modelled from the spec: `oval_syschar_status_parse` reads the attribute
through the status text table; an absent or unparseable attribute falls back
to the default. -/
def oval_syschar_status_parse {E : Type} (C : Collaborators E) (reader : xmlNode) (attname : String)
    (defval : oval_syschar_status_t) : oval_syschar_status_t :=
  match xmlTextReaderGetAttribute reader attname with
  | none => defval
  | some text =>
    match C.syschar_status_from_text text with
    | some v => v
    | none => defval

/-- Modelled from the spec: `oval_message_level_parse` reads the attribute
through the message-level text table; an absent or unparseable attribute falls
back to the default. -/
def oval_message_level_parse {E : Type} (C : Collaborators E) (reader : xmlNode) (attname : String)
    (defval : oval_message_level_t) : oval_message_level_t :=
  match xmlTextReaderGetAttribute reader attname with
  | none => defval
  | some text =>
    match C.message_level_from_text text with
    | some v => v
    | none => defval

/-- Modelled from the spec: `oval_parser_text_value` reads the text content of
the element and hands it to the consumer; it reports success (1). -/
def oval_parser_text_value {E : Type} (h : Heap E) (reader : xmlNode) (_context : oval_parser_context)
    (consumer : Heap E → String → Option Nat → Option (Heap E)) (user : Option Nat) :
    Option (Heap E × Int) :=
  match consumer h reader.content user with
  | some h1 => some (h1, 1)
  | none => none

/-- Modelled from the spec: `oval_sysent_parse_tag`, the entry collaborator's
parse entry point, parses exactly one entry from the element and hands it to
the consumer; it reports success (1). -/
def oval_sysent_parse_tag {E : Type} (C : Collaborators E) (h : Heap E) (reader : xmlNode)
    (_context : oval_parser_context) (consumer : Heap E → E → Option Nat → Heap E)
    (user : Option Nat) : Heap E × Int :=
  (consumer h (C.sysent_from_tag reader) user, 1)

/-- Modelled from the spec: `oval_parser_skip_tag` skips the entire subtree
under the reader and reports success (1). -/
def oval_parser_skip_tag (_reader : xmlNode) (_context : oval_parser_context) : Int := 1

/-- The child loop of the generic tag router: every child is dispatched, in
document order; the code kept is the first one that is not 1. -/
def oval_parser_parse_tag.loop {E : Type} (context : oval_parser_context)
    (tag_handler : Heap E → xmlNode → oval_parser_context → Option Nat → Option (Heap E × Int))
    (user : Option Nat) : List xmlNode → Heap E → Int → Option (Heap E × Int)
  | [], h, return_code => some (h, return_code)
  | child :: rest, h, return_code =>
    match tag_handler h child context user with
    | some r =>
      oval_parser_parse_tag.loop context tag_handler user rest r.1
        (if return_code = 1 then r.2 else return_code)
    | none => none

/-- Modelled from the spec: `oval_parser_parse_tag`, the generic tag router,
dispatches every child element of the element under the reader through
`tag_handler`; a code that is not success does not abort sibling processing.
A handler call without defined result leaves the router without one. -/
def oval_parser_parse_tag {E : Type} (h : Heap E) (reader : xmlNode) (context : oval_parser_context)
    (tag_handler : Heap E → xmlNode → oval_parser_context → Option Nat → Option (Heap E × Int))
    (user : Option Nat) : Option (Heap E × Int) :=
  oval_parser_parse_tag.loop context tag_handler user reader.children h 1

/-- Text consumer `_oval_sysitem_parse_subtag_consume` (lines 253-256); the
message is the reader's text buffer. -/
def _oval_sysitem_parse_subtag_consume {E : Type} (h : Heap E) (message : String)
    (sysitem : Option Nat) : Option (Heap E) :=
  oval_sysitem_set_message h sysitem (char_ptr.buffer message)

/-- Entry consumer `_oval_sysitem_parse_subtag_item_consumer` (lines 258-261). -/
def _oval_sysitem_parse_subtag_item_consumer {E : Type} (h : Heap E) (item : E)
    (sysitem : Option Nat) : Heap E :=
  oval_sysitem_add_item h sysitem item

/-- Child handler `_oval_sysitem_parse_subtag` (lines 263-282): a child in the
reserved namespace is a message, a child in another namespace is an entry.
For a child that has no namespace `xmlTextReaderNamespaceUri` returns `NULL`,
and line 269 hands that `NULL` to `strcmp`: the behaviour is undefined and the
call has no result (`none`). -/
def _oval_sysitem_parse_subtag {E : Type} (C : Collaborators E) (h : Heap E) (reader : xmlNode)
    (context : oval_parser_context) (client : Option Nat) : Option (Heap E × Int) :=
  let sysitem := client
  match xmlTextReaderNamespaceUri reader with
  | none => none
  | some namespace_uri =>
    if NAMESPACE_OVALSYS = namespace_uri then
      let h1 := oval_sysitem_set_message_level h sysitem
        (oval_message_level_parse C reader "level" OVAL_MESSAGE_LEVEL_INFO)
      oval_parser_text_value h1 reader context _oval_sysitem_parse_subtag_consume sysitem
    else
      some (oval_sysent_parse_tag C h reader context _oval_sysitem_parse_subtag_item_consumer
        sysitem)

/-- Item parser `oval_sysitem_parse_tag` (lines 284-341); `none` when a child
handler has no defined result. -/
def oval_sysitem_parse_tag {E : Type} (C : Collaborators E) (h : Heap E) (reader : xmlNode)
    (context : oval_parser_context) : Option (Heap E × Int) :=
  let subtype := oval_subtype_parse C reader
  if subtype ≠ OVAL_SUBTYPE_UNKNOWN then
    let item_id := xmlTextReaderGetAttribute reader "id"
    let r := oval_sysitem_get_new h context.syschar_model item_id
    let sysitem := r.2
    let sub := oval_subtype_parse C reader
    let h1 := oval_sysitem_set_subtype r.1 sysitem sub
    let status_enum := oval_syschar_status_parse C reader "status" SYSCHAR_STATUS_EXISTS
    let h2 := oval_sysitem_set_status h1 sysitem status_enum
    oval_parser_parse_tag h2 reader context (_oval_sysitem_parse_subtag C) sysitem
  else
    some (h, oval_parser_skip_tag reader context)

/-! ## Serializer -/

/-- Serializer `oval_sysitem_to_dom` (lines 390-442): the parent node after the
call.  The item element is built in full and linked under the parent as its
last child, which is where `xmlNewChild` puts it. -/
def oval_sysitem_to_dom {E : Type} (C : Collaborators E) (h : Heap E) (sysitem : Option Nat)
    (doc : xmlDoc) (tag_parent : xmlNode) : xmlNode :=
  match sysitem with
  | none => tag_parent
  | some p =>
    match h.sysitems[p]? with
    | none => tag_parent
    | some it =>
      let ns_syschar := xmlSearchNsByHref doc tag_parent OVAL_SYSCHAR_NAMESPACE
      let subtype := oval_sysitem_get_subtype it
      if subtype ≠ 0 then
        let family := C.oval_family_get_text (C.oval_subtype_get_family subtype)
        let family_namespace := OVAL_SYSCHAR_NAMESPACE ++ "#" ++ family
        let subtype_text := C.oval_subtype_get_text subtype
        let tagname := subtype_text ++ "_item"
        let tag_sysitem := xmlNewNode C.xmlStringGetNodeList tag_parent none tagname none
        let tag_sysitem := xmlSetNs (xmlNewNs tag_sysitem family_namespace) (some family_namespace)
        let tag_sysitem := xmlNewProp tag_sysitem "id" (oval_sysitem_get_id it)
        let tag_sysitem := xmlNewProp tag_sysitem "status"
          (some (C.oval_syschar_status_get_text (oval_sysitem_get_status it)))
        let tag_sysitem :=
          match oval_sysitem_get_message it with
          | some message =>
            let tag_message :=
              xmlNewNode C.xmlStringGetNodeList tag_sysitem ns_syschar "message" (some message)
            let tag_message := xmlNewProp tag_message "level"
              (some (C.oval_message_level_text (oval_sysitem_get_message_level it)))
            xmlAddChild tag_sysitem tag_message
          | none => tag_sysitem
        let tag_sysitem := (oval_sysitem_get_items it).foldl
          (fun tag item => C.oval_sysent_to_dom item doc tag) tag_sysitem
        xmlAddChild tag_parent tag_sysitem
      else
        tag_parent

/-! ## Calls of the mutators, and concrete data to run the definitions on -/

/-- A call of one of the five mutators, with its argument. -/
inductive MutatorCall (E : Type) where
  | set_subtype (subtype : oval_subtype_t)
  | set_status (status : oval_syschar_status_t)
  | set_message (message : char_ptr)
  | set_message_level (level : oval_message_level_t)
  | add_item (item : E)

/-- The heap after one mutator call on the item pointer; `none` when the call
has no defined result. -/
def MutatorCall.apply {E : Type} (h : Heap E) (sysitem : Option Nat) :
    MutatorCall E → Option (Heap E)
  | MutatorCall.set_subtype subtype => some (oval_sysitem_set_subtype h sysitem subtype)
  | MutatorCall.set_status status => some (oval_sysitem_set_status h sysitem status)
  | MutatorCall.set_message message => oval_sysitem_set_message h sysitem message
  | MutatorCall.set_message_level level => some (oval_sysitem_set_message_level h sysitem level)
  | MutatorCall.add_item item => some (oval_sysitem_add_item h sysitem item)

/-- The heap after a sequence of mutator calls on the item pointer, in order. -/
def MutatorCall.applyAll {E : Type} (h : Heap E) (sysitem : Option Nat) :
    List (MutatorCall E) → Option (Heap E)
  | [] => some h
  | call :: rest =>
    match MutatorCall.apply h sysitem call with
    | some h1 => MutatorCall.applyAll h1 sysitem rest
    | none => none

/-- The text built from a content string, for the sample vocabulary: a
reference to one of the five predefined entities is replaced by its character,
any other terminated reference becomes a reference node without text, and at
an unterminated reference the text collected since the last reference node is
dropped.  The arguments are the characters left, the text already in nodes and
the text collected. -/
def sampleGetNodeList : Nat → List Char → List Char → List Char → List Char
  | 0, _, done, buf => done ++ buf
  | _ + 1, [], done, buf => done ++ buf
  | fuel + 1, c :: rest, done, buf =>
    if c = '&' then
      match rest.dropWhile (fun x => x != ';') with
      | [] => done
      | _ :: more =>
        let name := String.mk (rest.takeWhile (fun x => x != ';'))
        if name = "amp" then sampleGetNodeList fuel more done (buf ++ ['&'])
        else if name = "lt" then sampleGetNodeList fuel more done (buf ++ ['<'])
        else if name = "gt" then sampleGetNodeList fuel more done (buf ++ ['>'])
        else if name = "quot" then sampleGetNodeList fuel more done (buf ++ [Char.ofNat 34])
        else if name = "apos" then sampleGetNodeList fuel more done (buf ++ [Char.ofNat 39])
        else sampleGetNodeList fuel more (done ++ buf) []
    else sampleGetNodeList fuel rest done (buf ++ [c])

/-- A small vocabulary and entry collaborator to run the definitions on: one
subtype (code 7006, text `file`, family 7000 with text `unix`), the status and
level tokens of the XML element shape, and entries that are the name of the
element they are written as. -/
def sampleCollaborators : Collaborators String where
  xmlStringGetNodeList := fun content =>
    String.mk (sampleGetNodeList content.length content.data [] [])
  subtype_from_tag := fun ns name =>
    if ns = some (OVAL_SYSCHAR_NAMESPACE ++ "#unix") ∧ name = "file_item" then 7006 else 0
  oval_subtype_get_family := fun subtype => (subtype / 1000) * 1000
  oval_family_get_text := fun family => if family = 7000 then "unix" else "unknown"
  oval_subtype_get_text := fun subtype => if subtype = 7006 then "file" else "unknown"
  oval_syschar_status_get_text := fun status =>
    match status with
    | SYSCHAR_STATUS_UNKNOWN => "unknown"
    | SYSCHAR_STATUS_ERROR => "error"
    | SYSCHAR_STATUS_EXISTS => "exists"
    | SYSCHAR_STATUS_DOES_NOT_EXIST => "does-not-exist"
    | SYSCHAR_STATUS_NOT_COLLECTED => "not-collected"
    | SYSCHAR_STATUS_NOT_APPLICABLE => "not-applicable"
  syschar_status_from_text := fun text =>
    if text = "unknown" then some SYSCHAR_STATUS_UNKNOWN
    else if text = "error" then some SYSCHAR_STATUS_ERROR
    else if text = "exists" then some SYSCHAR_STATUS_EXISTS
    else if text = "does-not-exist" then some SYSCHAR_STATUS_DOES_NOT_EXIST
    else if text = "not-collected" then some SYSCHAR_STATUS_NOT_COLLECTED
    else if text = "not-applicable" then some SYSCHAR_STATUS_NOT_APPLICABLE
    else none
  oval_message_level_text := fun level =>
    match level with
    | OVAL_MESSAGE_LEVEL_NONE => "none"
    | OVAL_MESSAGE_LEVEL_INFO => "info"
    | OVAL_MESSAGE_LEVEL_WARNING => "warning"
    | OVAL_MESSAGE_LEVEL_ERROR => "error"
    | OVAL_MESSAGE_LEVEL_FATAL => "fatal"
  message_level_from_text := fun text =>
    if text = "none" then some OVAL_MESSAGE_LEVEL_NONE
    else if text = "info" then some OVAL_MESSAGE_LEVEL_INFO
    else if text = "warning" then some OVAL_MESSAGE_LEVEL_WARNING
    else if text = "error" then some OVAL_MESSAGE_LEVEL_ERROR
    else if text = "fatal" then some OVAL_MESSAGE_LEVEL_FATAL
    else none
  oval_sysent_is_valid := fun sysent => decide (sysent ≠ "")
  oval_sysent_clone := fun _ sysent => sysent
  oval_sysent_to_dom := fun sysent _ parent =>
    xmlAddChild parent (xmlNode.element parent.ns [] sysent [] "" [])
  sysent_from_tag := fun reader => reader.name

/-- An item of subtype 7006 with one entry and no message, owned by model 0. -/
def sampleItem : oval_sysitem String :=
  { model := some 0
    subtype := 7006
    message_level := OVAL_MESSAGE_LEVEL_NONE
    id := some "item1"
    message := none
    items := ["path"]
    status := SYSCHAR_STATUS_EXISTS }

/-- An item with a message, owned by model 1. -/
def sampleLockedItem : oval_sysitem String :=
  { model := some 1
    subtype := 7006
    message_level := OVAL_MESSAGE_LEVEL_WARNING
    id := some "item2"
    message := some "permission denied"
    items := []
    status := SYSCHAR_STATUS_ERROR }

/-- An item with a message and two entries, owned by model 0. -/
def sampleFullItem : oval_sysitem String :=
  { model := some 0
    subtype := 7006
    message_level := OVAL_MESSAGE_LEVEL_ERROR
    id := some "item3"
    message := some "read failed"
    items := ["path", "size"]
    status := SYSCHAR_STATUS_NOT_COLLECTED }

/-- A heap with an unlocked model 0 owning `sampleItem` and `sampleFullItem`, a
locked model 1 owning `sampleLockedItem`, and an unlocked model 2 with an empty
registry. -/
def sampleHeap : Heap String :=
  { models :=
      [ { is_locked := false, sysitem_map := [(some "item1", 0), (some "item3", 2)] },
        { is_locked := true, sysitem_map := [(some "item2", 1)] },
        { is_locked := false, sysitem_map := [] } ]
    sysitems := [sampleItem, sampleLockedItem, sampleFullItem]
    out_of_memory := false }

/-- A heap built through the public interface: an item created in the unlocked
model 0, given the subtype 7006 and the message level info, and never given a
message.  Model 1 is unlocked and empty. -/
def levelOnlyHeap : Heap String :=
  let r := oval_sysitem_new
    { models := [ { is_locked := false, sysitem_map := [] }, { is_locked := false, sysitem_map := [] } ]
      sysitems := []
      out_of_memory := false } (some 0) (some "item1")
  oval_sysitem_set_message_level (oval_sysitem_set_subtype r.1 r.2 7006) r.2
    OVAL_MESSAGE_LEVEL_INFO

/-- The item of `levelOnlyHeap`, at pointer 0. -/
def levelOnlyItem : oval_sysitem String :=
  { model := some 0
    subtype := 7006
    message_level := OVAL_MESSAGE_LEVEL_INFO
    id := some "item1"
    message := none
    items := []
    status := SYSCHAR_STATUS_UNKNOWN }

/-- The children of an element that the parser takes for messages: those in
the reserved system-characteristics namespace, in document order. -/
def message_children (reader : xmlNode) : List xmlNode :=
  reader.children.filter (fun c => decide (c.ns = some NAMESPACE_OVALSYS))

/-- The children of an element that the parser hands to the entry parser: those
in a namespace other than the reserved one, in document order. -/
def entry_children (reader : xmlNode) : List xmlNode :=
  reader.children.filter (fun c => decide (c.ns ≠ none ∧ c.ns ≠ some NAMESPACE_OVALSYS))

/-- The record an unlocked item holds after `_oval_sysitem_parse_subtag` has
handled one child that has a namespace: a message child writes level and
message, a child in another namespace appends the entry parsed from it. -/
def subtag_effect {E : Type} (C : Collaborators E) (x : oval_sysitem E) (child : xmlNode) :
    oval_sysitem E :=
  if child.ns = some NAMESPACE_OVALSYS then
    { x with
      message_level := oval_message_level_parse C child "level" OVAL_MESSAGE_LEVEL_INFO
      message := some child.content }
  else
    { x with items := x.items ++ [C.sysent_from_tag child] }

/-- A recognised item element with id `item7`: status error, one warning
message and the entry `path`. -/
def sampleElementA : xmlNode :=
  xmlNode.element (some (OVAL_SYSCHAR_NAMESPACE ++ "#unix")) [] "file_item"
    [("id", "item7"), ("status", "error")] ""
    [ xmlNode.element (some NAMESPACE_OVALSYS) [] "message" [("level", "warning")] "first" [],
      xmlNode.element (some (OVAL_SYSCHAR_NAMESPACE ++ "#unix")) [] "path" [] "" [] ]

/-- A second recognised item element with the same id `item7`: no status
attribute, no message, and the entry `size`. -/
def sampleElementB : xmlNode :=
  xmlNode.element (some (OVAL_SYSCHAR_NAMESPACE ++ "#unix")) [] "file_item"
    [("id", "item7")] ""
    [ xmlNode.element (some (OVAL_SYSCHAR_NAMESPACE ++ "#unix")) [] "size" [] "" [] ]

/-- A parent node in the system-characteristics namespace, which it declares. -/
def sampleParent : xmlNode :=
  xmlNode.element (some OVAL_SYSCHAR_NAMESPACE) [OVAL_SYSCHAR_NAMESPACE] "system_data" [] "" []

/-- The frame assumption on the entry collaborator: its DOM emission nests new
children at the end of the element it is handed and changes nothing else of
that element. -/
def EntryEmitsNested {E : Type} (C : Collaborators E) : Prop :=
  ∀ (e : E) (doc : xmlDoc) (parent : xmlNode),
    ∃ xs, C.oval_sysent_to_dom e doc parent =
      xmlNode.element parent.ns parent.nsDef parent.name parent.properties parent.content
        (parent.children ++ xs)

/-- The local array `syschar_namespace` of the serializer (line 395). -/
def syschar_namespace : String :=
  "http://oval.mitre.org/XMLSchema/oval-system-characteristics-5"

/-- The C library `strlen`: the number of bytes of a string, its terminator not
counted. -/
def strlen (s : String) : Nat := s.utf8ByteSize

/-- The value of `sizeof(syschar_namespace)`: the bytes of the initialising
literal and its terminator. -/
def sizeof_syschar_namespace : Nat := strlen syschar_namespace + 1

/-- The size of the buffer `family_namespace` (line 399). -/
def family_namespace_size (family : String) : Nat :=
  sizeof_syschar_namespace + strlen family + 2

/-- The size of the buffer `tagname` (line 403). -/
def tagname_size (subtype_text : String) : Nat :=
  strlen subtype_text + 6

/-- The bytes `sprintf` stores for a formatted string: its bytes and the
terminator. -/
def sprintf_stores (formatted : String) : Nat := strlen formatted + 1

/-- A heap built through the public interface: an item created in the unlocked
model 0 and given one entry; its subtype is still `OVAL_SUBTYPE_UNKNOWN`. -/
def unknownSubtypeHeap : Heap String :=
  let r := oval_sysitem_new
    { models := [ { is_locked := false, sysitem_map := [] } ]
      sysitems := []
      out_of_memory := false } (some 0) (some "item1")
  oval_sysitem_add_item r.1 r.2 "path"

/-- The item of `unknownSubtypeHeap`, at pointer 0. -/
def unknownSubtypeItem : oval_sysitem String :=
  { model := some 0
    subtype := OVAL_SUBTYPE_UNKNOWN
    message_level := OVAL_MESSAGE_LEVEL_NONE
    id := some "item1"
    message := none
    items := ["path"]
    status := SYSCHAR_STATUS_UNKNOWN }

/-- The scenario element: id `item1`, no status attribute, one entry child. -/
def sampleScenarioElement : xmlNode :=
  xmlNode.element (some (OVAL_SYSCHAR_NAMESPACE ++ "#unix")) [] "file_item"
    [("id", "item1")] ""
    [ xmlNode.element (some (OVAL_SYSCHAR_NAMESPACE ++ "#unix")) [] "path" [] "" [] ]

/-- A message child with a level attribute. -/
def sampleMessageChild : xmlNode :=
  xmlNode.element (some NAMESPACE_OVALSYS) [] "message" [("level", "fatal")] "disk gone" []

/-- A parent node without namespace, in a document that declares none. -/
def sampleBareParent : xmlNode :=
  xmlNode.element none [] "data" [] "" []

/-- A second element with id `item1`: no status attribute, the entry `size`. -/
def sampleScenarioElement2 : xmlNode :=
  xmlNode.element (some (OVAL_SYSCHAR_NAMESPACE ++ "#unix")) [] "file_item"
    [("id", "item1")] ""
    [ xmlNode.element (some (OVAL_SYSCHAR_NAMESPACE ++ "#unix")) [] "size" [] "" [] ]

/-- A child element that has no namespace. -/
def sampleBareChild : xmlNode :=
  xmlNode.element none [] "note" [] "" []

theorem store_getElem?_self {E : Type} (h : Heap E) (p : Nat) (it x : oval_sysitem E)
    (hit : h.sysitems[p]? = some it) : (h.store p x).sysitems[p]? = some x := by
  have hp : p < h.sysitems.length := by
    rcases List.getElem?_eq_some.mp hit with ⟨hp, _⟩
    exact hp
  simp [Heap.store, hp]

theorem store_getElem?_ne {E : Type} (h : Heap E) (p q : Nat) (x : oval_sysitem E) (hne : p ≠ q) :
    (h.store p x).sysitems[q]? = h.sysitems[q]? := by
  simp [Heap.store, hne]

theorem store_store {E : Type} (h : Heap E) (p : Nat) (x y : oval_sysitem E) :
    (h.store p x).store p y = h.store p y := by
  simp [Heap.store, List.set_set]

theorem store_same {E : Type} (h : Heap E) (p : Nat) (it : oval_sysitem E)
    (hit : h.sysitems[p]? = some it) : h.store p it = h := by
  have hp : p < h.sysitems.length := by
    rcases List.getElem?_eq_some.mp hit with ⟨hp, _⟩
    exact hp
  have hl : h.sysitems.set p it = h.sysitems := by
    apply List.ext_getElem?
    intro j
    by_cases hij : p = j
    · subst hij
      rw [hit]
      exact List.getElem?_set_self hp
    · simp [hij]
  cases h with
  | mk models sysitems oom =>
    simp only [Heap.store] at hl ⊢
    rw [hl]

theorem is_locked_store {E : Type} (h : Heap E) (p : Nat) (x : oval_sysitem E) (model : Option Nat) :
    oval_syschar_model_is_locked (h.store p x) model = oval_syschar_model_is_locked h model := rfl

theorem is_valid_loop_true {E : Type} (C : Collaborators E) (l : List E) :
    oval_sysitem_is_valid.loop C l true = l.all C.oval_sysent_is_valid := by
  induction l with
  | nil => rfl
  | cons e rest ih =>
    cases he : C.oval_sysent_is_valid e <;> simp [oval_sysitem_is_valid.loop, he, ih]

theorem sysitem_map_get_append_of_ne (map rest : List (Option String × Nat)) (id : Option String)
    (hne : ∀ e ∈ map, e.1 ≠ id) : sysitem_map_get (map ++ rest) id = sysitem_map_get rest id := by
  induction map with
  | nil => rfl
  | cons e tl ih =>
    have h1 : e.1 ≠ id := hne e (List.mem_cons_self _ _)
    have h2 : ∀ x ∈ tl, x.1 ≠ id := fun x hx => hne x (List.mem_cons_of_mem _ hx)
    simp [sysitem_map_get, h1, ih h2]

theorem sysitem_map_get_put_self (map : List (Option String × Nat)) (id : Option String) (p : Nat) :
    sysitem_map_get (sysitem_map_put map id p) id = some p := by
  unfold sysitem_map_put
  rw [sysitem_map_get_append_of_ne]
  · simp [sysitem_map_get]
  · intro e he
    simpa using (List.mem_filter.mp he).2

/-! ## Validity -/

/-- C1: for a non-null item the validity check returns false exactly when the
subtype is `OVAL_SUBTYPE_UNKNOWN` or some entry fails `oval_sysent_is_valid`, and
true otherwise; an item with a known subtype and no entries is valid; the heap,
hence every field of the item, is the same after the check. -/
theorem oval_sysitem_is_valid_spec {E : Type} (C : Collaborators E) (h : Heap E) (p : Nat)
    (it : oval_sysitem E) (hit : h.sysitems[p]? = some it) :
    ((oval_sysitem_is_valid C h (some p)).1 = false ↔
        (it.subtype = OVAL_SUBTYPE_UNKNOWN ∨ ∃ e ∈ it.items, C.oval_sysent_is_valid e ≠ true)) ∧
    ((oval_sysitem_is_valid C h (some p)).1 = true ↔
        ¬ (it.subtype = OVAL_SUBTYPE_UNKNOWN ∨ ∃ e ∈ it.items, C.oval_sysent_is_valid e ≠ true)) ∧
    (it.subtype ≠ OVAL_SUBTYPE_UNKNOWN → it.items = [] →
        (oval_sysitem_is_valid C h (some p)).1 = true) ∧
    (oval_sysitem_is_valid C h (some p)).2 = h ∧
    (oval_sysitem_is_valid C h (some p)).2.sysitems[p]? = some it := by
  have key : (oval_sysitem_is_valid C h (some p)).1 = false ↔
      (it.subtype = OVAL_SUBTYPE_UNKNOWN ∨ ∃ e ∈ it.items, C.oval_sysent_is_valid e ≠ true) := by
    by_cases hs : it.subtype = OVAL_SUBTYPE_UNKNOWN
    · simp [oval_sysitem_is_valid, hit, oval_sysitem_get_subtype, hs]
    · simp only [oval_sysitem_is_valid, hit, oval_sysitem_get_subtype, hs, if_false,
        oval_sysitem_get_items, is_valid_loop_true, false_or]
      cases hall : it.items.all C.oval_sysent_is_valid
      · simp only [bne_iff_ne, ne_eq, Bool.false_eq_true, not_false_eq_true, if_true, true_iff]
        rw [List.all_eq_false] at hall
        obtain ⟨e, he, hv⟩ := hall
        exact ⟨e, he, hv⟩
      · simp only [bne_self_eq_false, Bool.false_eq_true, if_false, Bool.true_eq_false, false_iff]
        rw [List.all_eq_true] at hall
        rintro ⟨e, he, hv⟩
        exact hv (hall e he)
  have hheap : (oval_sysitem_is_valid C h (some p)).2 = h := by
    simp only [oval_sysitem_is_valid, hit]
    split
    · rfl
    · split <;> rfl
  refine ⟨key, ?_, ?_, hheap, ?_⟩
  · rw [← key]
    cases (oval_sysitem_is_valid C h (some p)).1 <;> simp
  · intro hs hitems
    have hn : ¬ (oval_sysitem_is_valid C h (some p)).1 = false := by
      rw [key]
      rintro (hu | ⟨e, he, _⟩)
      · exact hs hu
      · rw [hitems] at he
        cases he
    cases hv : (oval_sysitem_is_valid C h (some p)).1
    · exact absurd hv hn
    · rfl
  · rw [hheap]
    exact hit

/-- C1, on `sampleHeap`: the item at pointer 0. -/
theorem oval_sysitem_is_valid_spec_witness :
    sampleHeap.sysitems[0]? = some sampleItem ∧
    (oval_sysitem_is_valid sampleCollaborators sampleHeap (some 0)).1 = true :=
  ⟨rfl, (oval_sysitem_is_valid_spec sampleCollaborators sampleHeap 0 sampleItem rfl).2.1.mpr
    (by decide)⟩

/-! ## Lock discipline -/

theorem apply_locked {E : Type} (h : Heap E) (p : Nat) (it : oval_sysitem E)
    (hit : h.sysitems[p]? = some it) (hlock : oval_sysitem_is_locked h it = true)
    (call : MutatorCall E) : MutatorCall.apply h (some p) call = some h := by
  cases call <;>
    simp [MutatorCall.apply, oval_sysitem_set_subtype, oval_sysitem_set_status,
      oval_sysitem_set_message, oval_sysitem_set_message_level, oval_sysitem_add_item, hit, hlock]

/-- C2: when the owning model of an item is locked, each of the five mutators,
with any argument (for `set_message` also the item's own message pointer), has
a defined result and leaves the heap as it was, so the item keeps its id,
subtype, status, message, message level and entries; the same holds after any
sequence of mutator calls. -/
theorem locked_mutators_change_nothing {E : Type} (h : Heap E) (p : Nat) (it : oval_sysitem E)
    (hit : h.sysitems[p]? = some it) (hlock : oval_sysitem_is_locked h it = true) :
    (∀ call : MutatorCall E,
        MutatorCall.apply h (some p) call = some h ∧
        (MutatorCall.apply h (some p) call).map (fun hh => hh.sysitems[p]?) = some (some it)) ∧
    (∀ calls : List (MutatorCall E),
        MutatorCall.applyAll h (some p) calls = some h ∧
        (MutatorCall.applyAll h (some p) calls).map (fun hh => hh.sysitems[p]?)
          = some (some it)) := by
  have hall : ∀ calls : List (MutatorCall E), MutatorCall.applyAll h (some p) calls = some h := by
    intro calls
    induction calls with
    | nil => rfl
    | cons call rest ih =>
      simp only [MutatorCall.applyAll, apply_locked h p it hit hlock call]
      exact ih
  refine ⟨fun call => ?_, fun calls => ?_⟩
  · rw [apply_locked h p it hit hlock call]
    exact ⟨rfl, by simp [hit]⟩
  · rw [hall calls]
    exact ⟨rfl, by simp [hit]⟩

/-- C2, on `sampleHeap`: the item at pointer 1 belongs to the locked model 1. -/
theorem locked_mutators_change_nothing_witness :
    sampleHeap.sysitems[1]? = some sampleLockedItem ∧
    oval_sysitem_is_locked sampleHeap sampleLockedItem = true ∧
    MutatorCall.applyAll sampleHeap (some 1)
      [MutatorCall.set_subtype 0, MutatorCall.set_message char_ptr.null,
       MutatorCall.set_message char_ptr.own_message, MutatorCall.add_item "x",
       MutatorCall.set_status SYSCHAR_STATUS_EXISTS,
       MutatorCall.set_message_level OVAL_MESSAGE_LEVEL_NONE] = some sampleHeap :=
  ⟨rfl, rfl, ((locked_mutators_change_nothing sampleHeap 1 sampleLockedItem rfl rfl).2 _).1⟩

/-! ## Mutators on an unlocked item -/

theorem set_subtype_unlocked {E : Type} (h : Heap E) (p : Nat) (it : oval_sysitem E)
    (v : oval_subtype_t) (hit : h.sysitems[p]? = some it)
    (hunl : oval_syschar_model_is_locked h it.model = false) :
    oval_sysitem_set_subtype h (some p) v = h.store p { it with subtype := v } := by
  simp [oval_sysitem_set_subtype, oval_sysitem_is_locked, hit, hunl]

theorem set_status_unlocked {E : Type} (h : Heap E) (p : Nat) (it : oval_sysitem E)
    (v : oval_syschar_status_t) (hit : h.sysitems[p]? = some it)
    (hunl : oval_syschar_model_is_locked h it.model = false) :
    oval_sysitem_set_status h (some p) v = h.store p { it with status := v } := by
  simp [oval_sysitem_set_status, oval_sysitem_is_locked, hit, hunl]

theorem set_message_level_unlocked {E : Type} (h : Heap E) (p : Nat) (it : oval_sysitem E)
    (v : oval_message_level_t) (hit : h.sysitems[p]? = some it)
    (hunl : oval_syschar_model_is_locked h it.model = false) :
    oval_sysitem_set_message_level h (some p) v = h.store p { it with message_level := v } := by
  simp [oval_sysitem_set_message_level, oval_sysitem_is_locked, hit, hunl]

theorem set_message_unlocked {E : Type} (h : Heap E) (p : Nat) (it : oval_sysitem E)
    (text : String) (hit : h.sysitems[p]? = some it)
    (hunl : oval_syschar_model_is_locked h it.model = false) :
    oval_sysitem_set_message h (some p) (char_ptr.buffer text)
      = some (h.store p { it with message := some text }) := by
  simp [oval_sysitem_set_message, oval_sysitem_is_locked, hit, hunl, oscap_strdup]

theorem set_message_null_unlocked {E : Type} (h : Heap E) (p : Nat) (it : oval_sysitem E)
    (hit : h.sysitems[p]? = some it)
    (hunl : oval_syschar_model_is_locked h it.model = false) :
    oval_sysitem_set_message h (some p) char_ptr.null
      = some (h.store p { it with message := none }) := by
  simp [oval_sysitem_set_message, oval_sysitem_is_locked, hit, hunl]

theorem add_item_unlocked {E : Type} (h : Heap E) (p : Nat) (it : oval_sysitem E)
    (e : E) (hit : h.sysitems[p]? = some it)
    (hunl : oval_syschar_model_is_locked h it.model = false) :
    oval_sysitem_add_item h (some p) e = h.store p { it with items := it.items ++ [e] } := by
  simp [oval_sysitem_add_item, oval_sysitem_is_locked, hit, hunl]

/-- What the mutators do on a non-null item whose owning model is not locked,
the message argument being `NULL` or a buffer of its own: the item is stored
with exactly the targeted field changed. -/
theorem unlocked_mutators_change_target_only {E : Type} (h : Heap E) (p : Nat)
    (it : oval_sysitem E) (hit : h.sysitems[p]? = some it)
    (hunl : oval_sysitem_is_locked h it = false) :
    (∀ v, oval_sysitem_set_subtype h (some p) v = h.store p { it with subtype := v }) ∧
    (∀ v, oval_sysitem_set_status h (some p) v = h.store p { it with status := v }) ∧
    (∀ v, oval_sysitem_set_message_level h (some p) v
      = h.store p { it with message_level := v }) ∧
    (∀ text, oval_sysitem_set_message h (some p) (char_ptr.buffer text)
      = some (h.store p { it with message := some text })) ∧
    oval_sysitem_set_message h (some p) char_ptr.null
      = some (h.store p { it with message := none }) ∧
    (∀ e, oval_sysitem_add_item h (some p) e
      = h.store p { it with items := it.items ++ [e] }) :=
  ⟨fun v => set_subtype_unlocked h p it v hit hunl,
   fun v => set_status_unlocked h p it v hit hunl,
   fun v => set_message_level_unlocked h p it v hit hunl,
   fun text => set_message_unlocked h p it text hit hunl,
   set_message_null_unlocked h p it hit hunl,
   fun e => add_item_unlocked h p it e hit hunl⟩

/-- C3, the failing call: the item at pointer 2 of `sampleHeap` is not `NULL`,
belongs to an unlocked model and has the message `read failed`.  Called with
the pointer `oval_sysitem_get_message` returns for that item,
`oval_sysitem_set_message` frees the message and then copies from the freed
buffer: the call has no defined result, where the claim has the message equal
to the argument and every other field unchanged. -/
theorem set_message_own_pointer_undefined :
    sampleHeap.sysitems[2]? = some sampleFullItem ∧
    oval_sysitem_is_locked sampleHeap sampleFullItem = false ∧
    oval_sysitem_get_message sampleFullItem = some "read failed" ∧
    oval_sysitem_set_message sampleHeap (some 2) char_ptr.own_message = none ∧
    MutatorCall.apply sampleHeap (some 2) (MutatorCall.set_message char_ptr.own_message)
      = none := by
  decide

/-! ## Creation -/

/-- C4: on a model that is already locked, `oval_sysitem_new` returns `NULL` for
every id and leaves the heap, hence the registry of the model, as it was. -/
theorem oval_sysitem_new_locked {E : Type} (h : Heap E) (m : Nat) (id : Option String)
    (hlock : oval_syschar_model_is_locked h (some m) = true) :
    oval_sysitem_new h (some m) id = (h, none) ∧
    (oval_sysitem_new h (some m) id).2 = none ∧
    (oval_sysitem_new h (some m) id).1.models[m]? = h.models[m]? ∧
    ∀ key, oval_syschar_model_get_sysitem (oval_sysitem_new h (some m) id).1 (some m) key
      = oval_syschar_model_get_sysitem h (some m) key := by
  have e1 : oval_sysitem_new h (some m) id = (h, none) := by
    simp [oval_sysitem_new, hlock]
  rw [e1]
  exact ⟨rfl, rfl, rfl, fun _ => rfl⟩

/-- C4, on `sampleHeap`: model 1 is locked. -/
theorem oval_sysitem_new_locked_witness :
    oval_syschar_model_is_locked sampleHeap (some 1) = true ∧
    oval_sysitem_new sampleHeap (some 1) (some "item3") = (sampleHeap, none) :=
  ⟨rfl, (oval_sysitem_new_locked sampleHeap 1 (some "item3") rfl).1⟩

/-- C5: on an unlocked model, allocation succeeding, `oval_sysitem_new` returns
a fresh item that carries the given id, status unknown, no message, message
level none, subtype `OVAL_SUBTYPE_UNKNOWN` and no entries, that points back to
the model, and that the registry of the model finds under the id after the
same call. -/
theorem oval_sysitem_new_unlocked {E : Type} (h : Heap E) (m : Nat) (md : oval_syschar_model)
    (id : Option String) (hm : h.models[m]? = some md) (hunl : md.is_locked = false)
    (hmem : h.out_of_memory = false) :
    ∃ p, (oval_sysitem_new h (some m) id).2 = some p ∧
      h.sysitems[p]? = none ∧
      (oval_sysitem_new h (some m) id).1.sysitems[p]? =
        some { model := some m
               subtype := OVAL_SUBTYPE_UNKNOWN
               message_level := OVAL_MESSAGE_LEVEL_NONE
               id := id
               message := none
               items := []
               status := SYSCHAR_STATUS_UNKNOWN } ∧
      oval_syschar_model_get_sysitem (oval_sysitem_new h (some m) id).1 (some m) id = some p := by
  have hl : oval_syschar_model_is_locked h (some m) = false := by
    simp [oval_syschar_model_is_locked, hm, hunl]
  have hmlt : m < h.models.length := by
    rcases List.getElem?_eq_some.mp hm with ⟨hlt, _⟩
    exact hlt
  have hid : Option.map oscap_strdup id = id := by
    cases id <;> rfl
  refine ⟨h.sysitems.length, ?_, ?_, ?_, ?_⟩
  · simp [oval_sysitem_new, hl, hmem]
  · simp
  · simp [oval_sysitem_new, hl, hmem, oval_syschar_model_add_sysitem, hm, hid]
  · simp [oval_sysitem_new, hl, hmem, oval_syschar_model_add_sysitem, hm, hid,
      oval_syschar_model_get_sysitem, hmlt, sysitem_map_get_put_self]

/-- C5, on `sampleHeap`: creation of `item9` in the unlocked model 2. -/
theorem oval_sysitem_new_unlocked_witness :
    sampleHeap.models[2]? = some { is_locked := false, sysitem_map := [] } ∧
    sampleHeap.out_of_memory = false ∧
    ∃ p, (oval_sysitem_new sampleHeap (some 2) (some "item9")).2 = some p ∧
      sampleHeap.sysitems[p]? = none ∧
      (oval_sysitem_new sampleHeap (some 2) (some "item9")).1.sysitems[p]? =
        some { model := some 2
               subtype := OVAL_SUBTYPE_UNKNOWN
               message_level := OVAL_MESSAGE_LEVEL_NONE
               id := some "item9"
               message := none
               items := []
               status := SYSCHAR_STATUS_UNKNOWN } ∧
      oval_syschar_model_get_sysitem (oval_sysitem_new sampleHeap (some 2) (some "item9")).1
        (some 2) (some "item9") = some p :=
  ⟨rfl, rfl, oval_sysitem_new_unlocked sampleHeap 2 _ (some "item9") rfl rfl rfl⟩

/-! ## Messages -/

/-- On an item of an unlocked model, for message arguments that are `NULL` or
buffers of their own, two calls of `oval_sysitem_set_message` leave the heap
the second alone leaves, and `NULL` clears the message and keeps the level. -/
theorem oval_sysitem_set_message_last_write_wins {E : Type} (h : Heap E) (p : Nat)
    (it : oval_sysitem E) (hit : h.sysitems[p]? = some it)
    (hunl : oval_sysitem_is_locked h it = false) :
    (∀ m1 m2 : char_ptr, m1 ≠ char_ptr.own_message → m2 ≠ char_ptr.own_message →
      (oval_sysitem_set_message h (some p) m1).bind
          (fun h1 => oval_sysitem_set_message h1 (some p) m2)
        = oval_sysitem_set_message h (some p) m2) ∧
    oval_sysitem_set_message h (some p) char_ptr.null
      = some (h.store p { it with message := none }) := by
  have hp : p < h.sysitems.length := by
    rcases List.getElem?_eq_some.mp hit with ⟨hp, _⟩
    exact hp
  refine ⟨fun m1 m2 h1 h2 => ?_, set_message_null_unlocked h p it hit hunl⟩
  have hstep : ∀ (mv : Option String),
      oval_sysitem_set_message h (some p) m1 = some (h.store p { it with message := mv }) →
      (oval_sysitem_set_message h (some p) m1).bind
          (fun h1 => oval_sysitem_set_message h1 (some p) m2)
        = oval_sysitem_set_message h (some p) m2 := by
    intro mv hx
    have hitx : (h.store p { it with message := mv }).sysitems[p]?
        = some { it with message := mv } := store_getElem?_self h p it _ hit
    have hunlx : oval_syschar_model_is_locked (h.store p { it with message := mv })
        ({ it with message := mv } : oval_sysitem E).model = false := hunl
    rw [hx, Option.some_bind]
    cases m2 with
    | null =>
      rw [set_message_null_unlocked _ p _ hitx hunlx, set_message_null_unlocked h p it hit hunl,
        store_store]
    | buffer text =>
      rw [set_message_unlocked _ p _ text hitx hunlx, set_message_unlocked h p it text hit hunl,
        store_store]
    | own_message => exact absurd rfl h2
  cases m1 with
  | null => exact hstep _ (set_message_null_unlocked h p it hit hunl)
  | buffer text => exact hstep _ (set_message_unlocked h p it text hit hunl)
  | own_message => exact absurd rfl h1

/-- C6, the failing pair: the item at pointer 2 of `sampleHeap` belongs to an
unlocked model and has a message.  With `m1` the pointer
`oval_sysitem_get_message` returns for that item and `m2` a buffer holding
`second`, the first call frees the message and copies from the freed buffer,
so the two calls in sequence have no defined result, where `set_message(m2)`
alone stores `second`. -/
theorem set_message_twice_own_pointer_undefined :
    sampleHeap.sysitems[2]? = some sampleFullItem ∧
    oval_sysitem_is_locked sampleHeap sampleFullItem = false ∧
    oval_sysitem_get_message sampleFullItem = some "read failed" ∧
    (oval_sysitem_set_message sampleHeap (some 2) char_ptr.own_message).bind
        (fun h1 => oval_sysitem_set_message h1 (some 2) (char_ptr.buffer "second")) = none ∧
    oval_sysitem_set_message sampleHeap (some 2) (char_ptr.buffer "second")
      = some (sampleHeap.store 2 { sampleFullItem with message := some "second" }) := by
  decide

/-! ## Clone -/

theorem store_getElem?_of_lt {E : Type} (h : Heap E) (p : Nat) (x : oval_sysitem E)
    (hp : p < h.sysitems.length) : (h.store p x).sysitems[p]? = some x := by
  simp [Heap.store, hp]

theorem set_subtype_store {E : Type} (h : Heap E) (p : Nat) (x : oval_sysitem E)
    (v : oval_subtype_t) (hp : p < h.sysitems.length)
    (hunl : oval_syschar_model_is_locked h x.model = false) :
    oval_sysitem_set_subtype (h.store p x) (some p) v = h.store p { x with subtype := v } := by
  rw [set_subtype_unlocked _ p x v (store_getElem?_of_lt h p x hp) hunl, store_store]

theorem set_status_store {E : Type} (h : Heap E) (p : Nat) (x : oval_sysitem E)
    (v : oval_syschar_status_t) (hp : p < h.sysitems.length)
    (hunl : oval_syschar_model_is_locked h x.model = false) :
    oval_sysitem_set_status (h.store p x) (some p) v = h.store p { x with status := v } := by
  rw [set_status_unlocked _ p x v (store_getElem?_of_lt h p x hp) hunl, store_store]

theorem set_message_level_store {E : Type} (h : Heap E) (p : Nat) (x : oval_sysitem E)
    (v : oval_message_level_t) (hp : p < h.sysitems.length)
    (hunl : oval_syschar_model_is_locked h x.model = false) :
    oval_sysitem_set_message_level (h.store p x) (some p) v
      = h.store p { x with message_level := v } := by
  rw [set_message_level_unlocked _ p x v (store_getElem?_of_lt h p x hp) hunl, store_store]

theorem set_message_store {E : Type} (h : Heap E) (p : Nat) (x : oval_sysitem E)
    (text : String) (hp : p < h.sysitems.length)
    (hunl : oval_syschar_model_is_locked h x.model = false) :
    oval_sysitem_set_message (h.store p x) (some p) (char_ptr.buffer text)
      = some (h.store p { x with message := some text }) := by
  rw [set_message_unlocked _ p x text (store_getElem?_of_lt h p x hp) hunl, store_store]

theorem add_item_store {E : Type} (h : Heap E) (p : Nat) (x : oval_sysitem E)
    (e : E) (hp : p < h.sysitems.length)
    (hunl : oval_syschar_model_is_locked h x.model = false) :
    oval_sysitem_add_item (h.store p x) (some p) e
      = h.store p { x with items := x.items ++ [e] } := by
  rw [add_item_unlocked _ p x e (store_getElem?_of_lt h p x hp) hunl, store_store]

theorem add_items_store {E : Type} (f : E → E) (h : Heap E) (p : Nat)
    (hp : p < h.sysitems.length) (es : List E) :
    ∀ x : oval_sysitem E, oval_syschar_model_is_locked h x.model = false →
      es.foldl (fun hh e => oval_sysitem_add_item hh (some p) (f e)) (h.store p x)
        = h.store p { x with items := x.items ++ es.map f } := by
  induction es with
  | nil =>
    intro x _
    simp
  | cons e rest ih =>
    intro x hunl
    rw [List.foldl_cons, add_item_store h p x (f e) hp hunl]
    rw [ih { x with items := x.items ++ [f e] } hunl]
    simp

/-- The heap right after a successful creation: the old items followed by the
new one, and the registry of the model extended. -/
theorem oval_sysitem_new_eq {E : Type} (h : Heap E) (m : Nat) (md : oval_syschar_model)
    (id : Option String) (hm : h.models[m]? = some md) (hunl : md.is_locked = false)
    (hmem : h.out_of_memory = false) :
    oval_sysitem_new h (some m) id =
      ({ models := h.models.set m
            { md with sysitem_map := sysitem_map_put md.sysitem_map id h.sysitems.length }
         sysitems := h.sysitems ++
            [{ model := some m
               subtype := OVAL_SUBTYPE_UNKNOWN
               message_level := OVAL_MESSAGE_LEVEL_NONE
               id := id
               message := none
               items := []
               status := SYSCHAR_STATUS_UNKNOWN }]
         out_of_memory := false }, some h.sysitems.length) := by
  have hl : oval_syschar_model_is_locked h (some m) = false := by
    simp [oval_syschar_model_is_locked, hm, hunl]
  have hid : Option.map oscap_strdup id = id := by
    cases id <;> rfl
  simp [oval_sysitem_new, hl, hmem, oval_syschar_model_add_sysitem, hm, hid]

theorem is_locked_set_models {E : Type} (models : List oval_syschar_model)
    (sysitems : List (oval_sysitem E)) (oom : Bool) (m : Nat) (md : oval_syschar_model)
    (map : List (Option String × Nat)) (hm : models[m]? = some md) (hunl : md.is_locked = false) :
    oval_syschar_model_is_locked
      ({ models := models.set m { md with sysitem_map := map }
         sysitems := sysitems
         out_of_memory := oom } : Heap E) (some m) = false := by
  have hmlt : m < models.length := by
    rcases List.getElem?_eq_some.mp hm with ⟨hlt, _⟩
    exact hlt
  simp [oval_syschar_model_is_locked, hmlt, hunl]

/-- What clone computes on an unlocked model with memory available: it has a
defined result, the heap after creation with the new item stored in its final
state. -/
theorem oval_sysitem_clone_eq {E : Type} (C : Collaborators E) (h : Heap E) (m : Nat)
    (md : oval_syschar_model) (old_data : Nat) (old : oval_sysitem E)
    (hold : h.sysitems[old_data]? = some old) (hm : h.models[m]? = some md)
    (hunl : md.is_locked = false) (hmem : h.out_of_memory = false) :
    oval_sysitem_clone C h (some m) old_data =
      some ((oval_sysitem_new h (some m) old.id).1.store h.sysitems.length
          { model := some m
            subtype := old.subtype
            message_level :=
              if old.message.isSome then old.message_level else OVAL_MESSAGE_LEVEL_NONE
            id := old.id
            message := old.message
            items := old.items.map (C.oval_sysent_clone (some m))
            status := old.status },
        some h.sysitems.length) := by
  have hnew := oval_sysitem_new_eq h m md old.id hm hunl hmem
  have hq : (oval_sysitem_new h (some m) old.id).2 = some h.sysitems.length := by
    rw [hnew]
  have hget : (oval_sysitem_new h (some m) old.id).1.sysitems[h.sysitems.length]? = some
      { model := some m
        subtype := OVAL_SUBTYPE_UNKNOWN
        message_level := OVAL_MESSAGE_LEVEL_NONE
        id := old.id
        message := none
        items := []
        status := SYSCHAR_STATUS_UNKNOWN } := by
    rw [hnew]
    simp
  have hlk : oval_syschar_model_is_locked (oval_sysitem_new h (some m) old.id).1 (some m)
      = false := by
    rw [hnew]
    exact is_locked_set_models _ _ _ m md _ hm hunl
  simp only [oval_sysitem_clone, hold, oval_sysitem_get_id, oval_sysitem_get_message,
    oval_sysitem_get_message_level, oval_sysitem_get_status, oval_sysitem_get_subtype,
    oval_sysitem_get_items, hq]
  generalize (oval_sysitem_new h (some m) old.id).1 = h1 at hget hlk ⊢
  have hp : h.sysitems.length < h1.sysitems.length := by
    rcases List.getElem?_eq_some.mp hget with ⟨hp, _⟩
    exact hp
  have h1eq := (store_same h1 _ _ hget).symm
  cases hmsg : old.message with
  | none =>
    simp only [Option.isSome_none, Bool.false_eq_true, if_false]
    rw [h1eq, set_status_store h1 _ _ _ hp hlk, set_subtype_store h1 _ _ _ hp hlk,
      add_items_store _ h1 _ hp _ _ hlk, store_store]
    rfl
  | some msg =>
    simp only [Option.isSome_some, if_true]
    rw [h1eq, set_message_store h1 _ _ _ hp hlk]
    simp only []
    rw [set_message_level_store h1 _ _ _ hp hlk,
      set_status_store h1 _ _ _ hp hlk, set_subtype_store h1 _ _ _ hp hlk,
      add_items_store _ h1 _ hp _ _ hlk, store_store]
    rfl

/-- C7, refuted as stated: the item of `levelOnlyHeap` has no message and
message level info; its clone into the unlocked model 1 has message level
none. -/
theorem oval_sysitem_clone_level_counterexample :
    levelOnlyHeap.sysitems[0]? = some levelOnlyItem ∧
    oval_syschar_model_is_locked levelOnlyHeap (some 1) = false ∧
    (oval_sysitem_clone sampleCollaborators levelOnlyHeap (some 1) 0).map (fun r => r.2)
      = some (some 1) ∧
    (oval_sysitem_clone sampleCollaborators levelOnlyHeap (some 1) 0).map
        (fun r => (r.1.sysitems[1]?).map (fun x => x.message_level))
      = some (some OVAL_MESSAGE_LEVEL_NONE) ∧
    (levelOnlyHeap.sysitems[0]?).map (fun x => x.message_level) = some OVAL_MESSAGE_LEVEL_INFO ∧
    (oval_sysitem_clone sampleCollaborators levelOnlyHeap (some 1) 0).map
        (fun r => (r.1.sysitems[1]?).map (fun x => x.message_level))
      ≠ some ((levelOnlyHeap.sysitems[0]?).map (fun x => x.message_level)) := by
  decide

/-- C7, amended: for a source item and an unlocked new model, allocation
succeeding, clone returns an item that has the id, status, subtype, message
and number of entries of the source; its message level is that of the source
when the source has a message, and none when the source has no message. -/
theorem oval_sysitem_clone_fields {E : Type} (C : Collaborators E) (h : Heap E) (m : Nat)
    (md : oval_syschar_model) (old_data : Nat) (old : oval_sysitem E)
    (hold : h.sysitems[old_data]? = some old) (hm : h.models[m]? = some md)
    (hunl : md.is_locked = false) (hmem : h.out_of_memory = false) :
    ∃ (h1 : Heap E) (q : Nat) (new : oval_sysitem E),
      oval_sysitem_clone C h (some m) old_data = some (h1, some q) ∧
      h1.sysitems[q]? = some new ∧
      new.id = old.id ∧ new.status = old.status ∧ new.subtype = old.subtype ∧
      new.message = old.message ∧
      (old.message ≠ none → new.message_level = old.message_level) ∧
      (old.message = none → new.message_level = OVAL_MESSAGE_LEVEL_NONE) ∧
      new.items.length = old.items.length := by
  have hlen : h.sysitems.length < (oval_sysitem_new h (some m) old.id).1.sysitems.length := by
    rw [oval_sysitem_new_eq h m md old.id hm hunl hmem]
    simp
  refine ⟨_, h.sysitems.length,
    { model := some m
      subtype := old.subtype
      message_level := if old.message.isSome then old.message_level else OVAL_MESSAGE_LEVEL_NONE
      id := old.id
      message := old.message
      items := old.items.map (C.oval_sysent_clone (some m))
      status := old.status },
    oval_sysitem_clone_eq C h m md old_data old hold hm hunl hmem,
    store_getElem?_of_lt _ _ _ hlen, rfl, rfl, rfl, rfl, ?_, ?_, ?_⟩
  · intro hne
    cases hmsg : old.message with
    | none => exact absurd hmsg hne
    | some msg => simp
  · intro hnone
    simp [hnone]
  · simp

/-- C7 amended, on `sampleHeap`: the item at pointer 1, which has a message, is
cloned into the unlocked model 2. -/
theorem oval_sysitem_clone_fields_witness :
    sampleHeap.sysitems[1]? = some sampleLockedItem ∧
    sampleHeap.models[2]? = some { is_locked := false, sysitem_map := [] } ∧
    sampleHeap.out_of_memory = false ∧
    ∃ (h1 : Heap String) (q : Nat) (new : oval_sysitem String),
      oval_sysitem_clone sampleCollaborators sampleHeap (some 2) 1 = some (h1, some q) ∧
      h1.sysitems[q]? = some new ∧
      new.id = sampleLockedItem.id ∧ new.status = sampleLockedItem.status ∧
      new.subtype = sampleLockedItem.subtype ∧
      new.message = sampleLockedItem.message ∧
      (sampleLockedItem.message ≠ none → new.message_level = sampleLockedItem.message_level) ∧
      (sampleLockedItem.message = none → new.message_level = OVAL_MESSAGE_LEVEL_NONE) ∧
      new.items.length = sampleLockedItem.items.length :=
  ⟨rfl, rfl, rfl,
    oval_sysitem_clone_fields sampleCollaborators sampleHeap 2 _ 1 sampleLockedItem rfl rfl rfl rfl⟩

/-! ## Parser -/

theorem parse_subtag_store {E : Type} (C : Collaborators E) (context : oval_parser_context)
    (h : Heap E) (p : Nat) (hp : p < h.sysitems.length) (x : oval_sysitem E) (child : xmlNode)
    (hunl : oval_syschar_model_is_locked h x.model = false) (hns : child.ns ≠ none) :
    _oval_sysitem_parse_subtag C (h.store p x) child context (some p)
      = some (h.store p (subtag_effect C x child), 1) := by
  cases hu : child.ns with
  | none => exact absurd hu hns
  | some u =>
    by_cases hres : NAMESPACE_OVALSYS = u
    · have hres2 : some u = some NAMESPACE_OVALSYS := by rw [hres]
      simp only [_oval_sysitem_parse_subtag, xmlTextReaderNamespaceUri, hu, hres, if_true,
        oval_parser_text_value, _oval_sysitem_parse_subtag_consume, subtag_effect]
      rw [set_message_level_store h p x _ hp hunl,
        set_message_store h p
          { x with message_level := oval_message_level_parse C child "level" OVAL_MESSAGE_LEVEL_INFO }
          _ hp hunl]
    · have hres2 : ¬ some u = some NAMESPACE_OVALSYS := fun e => hres (Option.some.inj e).symm
      simp only [_oval_sysitem_parse_subtag, xmlTextReaderNamespaceUri, hu, hres, if_false,
        oval_sysent_parse_tag, _oval_sysitem_parse_subtag_item_consumer, subtag_effect, hres2]
      rw [add_item_store h p x _ hp hunl]

theorem subtag_effect_model {E : Type} (C : Collaborators E) (x : oval_sysitem E)
    (child : xmlNode) : (subtag_effect C x child).model = x.model := by
  unfold subtag_effect
  split <;> rfl

theorem parse_loop_store {E : Type} (C : Collaborators E) (context : oval_parser_context)
    (h : Heap E) (p : Nat) (hp : p < h.sysitems.length) (children : List xmlNode) :
    ∀ (x : oval_sysitem E) (rc : Int), oval_syschar_model_is_locked h x.model = false →
      (∀ c ∈ children, c.ns ≠ none) →
      oval_parser_parse_tag.loop context (_oval_sysitem_parse_subtag C) (some p) children
          (h.store p x) rc
        = some (h.store p (children.foldl (subtag_effect C) x), rc) := by
  induction children with
  | nil =>
    intro x rc _ _
    rfl
  | cons child rest ih =>
    intro x rc hunl hch
    have hunl2 : oval_syschar_model_is_locked h (subtag_effect C x child).model = false := by
      rw [subtag_effect_model]
      exact hunl
    have hc : child.ns ≠ none := hch child (List.mem_cons_self _ _)
    have hrest : ∀ c ∈ rest, c.ns ≠ none := fun c hmem => hch c (List.mem_cons_of_mem _ hmem)
    simp only [oval_parser_parse_tag.loop, parse_subtag_store C context h p hp x child hunl hc,
      List.foldl_cons]
    rw [ih _ _ hunl2 hrest]
    by_cases hrc : rc = 1 <;> simp [hrc]

/-- What the item parser computes once get-or-create has returned an item of
an unlocked model, every child of the element having a namespace: subtype and
status are written, then every child is dispatched; the return code is 1. -/
theorem parse_tag_eq {E : Type} (C : Collaborators E) (h h1 : Heap E) (reader : xmlNode)
    (context : oval_parser_context) (q : Nat) (x : oval_sysitem E)
    (hs : oval_subtype_parse C reader ≠ OVAL_SUBTYPE_UNKNOWN)
    (hch : ∀ c ∈ reader.children, c.ns ≠ none)
    (hget : oval_sysitem_get_new h context.syschar_model (xmlTextReaderGetAttribute reader "id")
      = (h1, some q))
    (hx : h1.sysitems[q]? = some x) (hunl : oval_syschar_model_is_locked h1 x.model = false) :
    oval_sysitem_parse_tag C h reader context
      = some (h1.store q (reader.children.foldl (subtag_effect C)
          { x with
            subtype := oval_subtype_parse C reader
            status := oval_syschar_status_parse C reader "status" SYSCHAR_STATUS_EXISTS }), 1) := by
  have hq : q < h1.sysitems.length := by
    rcases List.getElem?_eq_some.mp hx with ⟨hq, _⟩
    exact hq
  have h1eq := (store_same h1 q x hx).symm
  simp only [oval_sysitem_parse_tag, hs, ne_eq, not_false_eq_true, if_true, hget,
    oval_parser_parse_tag]
  rw [h1eq, set_subtype_store h1 q x _ hq hunl,
    set_status_store h1 q { x with subtype := oval_subtype_parse C reader } _ hq hunl,
    parse_loop_store C context h1 q hq _
      { x with
        subtype := oval_subtype_parse C reader
        status := oval_syschar_status_parse C reader "status" SYSCHAR_STATUS_EXISTS } _ hunl hch,
    store_store]

theorem fold_effect_fields {E : Type} (C : Collaborators E) (children : List xmlNode)
    (x : oval_sysitem E) :
    (children.foldl (subtag_effect C) x).model = x.model ∧
    (children.foldl (subtag_effect C) x).id = x.id ∧
    (children.foldl (subtag_effect C) x).subtype = x.subtype ∧
    (children.foldl (subtag_effect C) x).status = x.status ∧
    (children.foldl (subtag_effect C) x).items = x.items ++
      (children.filter (fun c => decide (c.ns ≠ some NAMESPACE_OVALSYS))).map C.sysent_from_tag ∧
    (∀ c, (children.filter (fun c => decide (c.ns = some NAMESPACE_OVALSYS))).getLast? = some c →
      (children.foldl (subtag_effect C) x).message = some c.content ∧
      (children.foldl (subtag_effect C) x).message_level
        = oval_message_level_parse C c "level" OVAL_MESSAGE_LEVEL_INFO) ∧
    (children.filter (fun c => decide (c.ns = some NAMESPACE_OVALSYS)) = [] →
      (children.foldl (subtag_effect C) x).message = x.message ∧
      (children.foldl (subtag_effect C) x).message_level = x.message_level) := by
  induction children using List.reverseRecOn with
  | nil => simp
  | append_singleton cs c ih =>
    obtain ⟨i1, i2, i3, i4, i5, i6, i7⟩ := ih
    rw [List.foldl_append]
    simp only [List.foldl_cons, List.foldl_nil, List.filter_append]
    by_cases hns : c.ns = some NAMESPACE_OVALSYS
    · have hf1 : List.filter (fun c => decide (c.ns ≠ some NAMESPACE_OVALSYS)) [c] = [] := by
        simp [hns]
      have hf2 : List.filter (fun c => decide (c.ns = some NAMESPACE_OVALSYS)) [c] = [c] := by
        simp [hns]
      rw [hf1, hf2]
      simp only [subtag_effect, hns, if_true, List.append_nil]
      refine ⟨i1, i2, i3, i4, i5, ?_, ?_⟩
      · intro c2 hc2
        rw [List.getLast?_concat] at hc2
        cases hc2
        exact ⟨rfl, rfl⟩
      · intro hnil
        simp at hnil
    · have hf1 : List.filter (fun c => decide (c.ns ≠ some NAMESPACE_OVALSYS)) [c] = [c] := by
        simp [hns]
      have hf2 : List.filter (fun c => decide (c.ns = some NAMESPACE_OVALSYS)) [c] = [] := by
        simp [hns]
      rw [hf1, hf2]
      simp only [subtag_effect, hns, if_false, List.append_nil]
      refine ⟨i1, i2, i3, i4, ?_, i6, i7⟩
      rw [i5]
      simp

theorem sysitem_map_put_filter (map : List (Option String × Nat)) (id : Option String) (p : Nat) :
    (sysitem_map_put map id p).filter (fun e => decide (e.1 = id)) = [(id, p)] := by
  unfold sysitem_map_put
  rw [List.filter_append, List.filter_filter]
  have h1 : List.filter (fun a => decide (a.1 = id) && decide (a.1 ≠ id)) map = [] := by
    rw [List.filter_eq_nil_iff]
    intro a _
    simp
  rw [h1]
  simp

theorem get_new_fresh {E : Type} (h : Heap E) (m : Nat) (md : oval_syschar_model)
    (id : Option String) (hm : h.models[m]? = some md)
    (hfresh : sysitem_map_get md.sysitem_map id = none) :
    oval_sysitem_get_new h (some m) id = oval_sysitem_new h (some m) id := by
  simp [oval_sysitem_get_new, oval_syschar_model_get_sysitem, hm, hfresh]


theorem entry_filter_eq (children : List xmlNode) (hch : ∀ c ∈ children, c.ns ≠ none) :
    children.filter (fun c => decide (c.ns ≠ none ∧ c.ns ≠ some NAMESPACE_OVALSYS))
      = children.filter (fun c => decide (c.ns ≠ some NAMESPACE_OVALSYS)) := by
  apply List.filter_congr
  intro c hc
  have := hch c hc
  simp [this]

/-- Facts about the heap after a successful creation. -/
theorem oval_sysitem_new_facts {E : Type} (h : Heap E) (m : Nat) (md : oval_syschar_model)
    (id : Option String) (hm : h.models[m]? = some md) (hunl : md.is_locked = false)
    (hmem : h.out_of_memory = false) :
    (oval_sysitem_new h (some m) id).1.models[m]? =
      some { md with sysitem_map := sysitem_map_put md.sysitem_map id h.sysitems.length } ∧
    (oval_sysitem_new h (some m) id).1.sysitems.length = h.sysitems.length + 1 ∧
    oval_syschar_model_is_locked (oval_sysitem_new h (some m) id).1 (some m) = false := by
  have hmlt : m < h.models.length := by
    rcases List.getElem?_eq_some.mp hm with ⟨hlt, _⟩
    exact hlt
  rw [oval_sysitem_new_eq h m md id hm hunl hmem]
  refine ⟨?_, ?_, is_locked_set_models _ _ _ m md _ hm hunl⟩
  · simp [hmlt]
  · simp

/-- Two recognised elements with the same id parsed one after the other, once
get-or-create has returned, for the first, an item of an unlocked model that
the registry finds under the id. -/
theorem parse_twice_core {E : Type} (C : Collaborators E) (h h0 : Heap E) (m : Nat)
    (reader1 reader2 : xmlNode) (q : Nat) (x0 : oval_sysitem E)
    (hsame : xmlTextReaderGetAttribute reader2 "id" = xmlTextReaderGetAttribute reader1 "id")
    (hs1 : oval_subtype_parse C reader1 ≠ OVAL_SUBTYPE_UNKNOWN)
    (hs2 : oval_subtype_parse C reader2 ≠ OVAL_SUBTYPE_UNKNOWN)
    (hch1 : ∀ c ∈ reader1.children, c.ns ≠ none)
    (hch2 : ∀ c ∈ reader2.children, c.ns ≠ none)
    (hget : oval_sysitem_get_new h (some m) (xmlTextReaderGetAttribute reader1 "id")
      = (h0, some q))
    (hx0 : h0.sysitems[q]? = some x0)
    (hunl0 : oval_syschar_model_is_locked h0 x0.model = false)
    (hlook : oval_syschar_model_get_sysitem h0 (some m) (xmlTextReaderGetAttribute reader1 "id")
      = some q) :
    ∃ (x1 it : oval_sysitem E),
      oval_sysitem_parse_tag C h reader1 { syschar_model := some m }
        = some (h0.store q x1, 1) ∧
      oval_sysitem_parse_tag C (h0.store q x1) reader2 { syschar_model := some m }
        = some (h0.store q it, 1) ∧
      it.id = x0.id ∧
      it.subtype = oval_subtype_parse C reader2 ∧
      it.status = oval_syschar_status_parse C reader2 "status" SYSCHAR_STATUS_EXISTS ∧
      (∀ c, (message_children reader2).getLast? = some c → it.message = some c.content) ∧
      (message_children reader2 = [] →
        ∀ c, (message_children reader1).getLast? = some c → it.message = some c.content) ∧
      (message_children reader2 = [] → message_children reader1 = [] →
        it.message = x0.message) ∧
      it.items = x0.items ++ (entry_children reader1).map C.sysent_from_tag
        ++ (entry_children reader2).map C.sysent_from_tag := by
  have hq : q < h0.sysitems.length := by
    rcases List.getElem?_eq_some.mp hx0 with ⟨hq, _⟩
    exact hq
  have hr1 := parse_tag_eq C h h0 reader1 { syschar_model := some m } q x0 hs1 hch1 hget hx0 hunl0
  obtain ⟨a1, a2, _, _, a5, a6, a7⟩ := fold_effect_fields C reader1.children
    { x0 with
      subtype := oval_subtype_parse C reader1
      status := oval_syschar_status_parse C reader1 "status" SYSCHAR_STATUS_EXISTS }
  generalize hx1 : (reader1.children.foldl (subtag_effect C)
    ({ x0 with
       subtype := oval_subtype_parse C reader1
       status := oval_syschar_status_parse C reader1 "status" SYSCHAR_STATUS_EXISTS } :
      oval_sysitem E)) = x1 at hr1 a1 a2 a5 a6 a7
  have hget2 : oval_sysitem_get_new (h0.store q x1)
      ({ syschar_model := some m } : oval_parser_context).syschar_model
      (xmlTextReaderGetAttribute reader2 "id") = (h0.store q x1, some q) := by
    have hlook2 : oval_syschar_model_get_sysitem (h0.store q x1) (some m)
        (xmlTextReaderGetAttribute reader1 "id") = some q := hlook
    simp [oval_sysitem_get_new, hsame, hlook2]
  have hunl2 : oval_syschar_model_is_locked (h0.store q x1) x1.model = false := by
    rw [a1]
    exact hunl0
  have hr2 := parse_tag_eq C (h0.store q x1) (h0.store q x1) reader2
    { syschar_model := some m } q x1 hs2 hch2 hget2 (store_getElem?_of_lt h0 _ x1 hq) hunl2
  obtain ⟨_, b2, b3, b4, b5, b6, b7⟩ := fold_effect_fields C reader2.children
    { x1 with
      subtype := oval_subtype_parse C reader2
      status := oval_syschar_status_parse C reader2 "status" SYSCHAR_STATUS_EXISTS }
  rw [store_store] at hr2
  refine ⟨x1, _, hr1, hr2, ?_, b3, b4, ?_, ?_, ?_, ?_⟩
  · rw [b2]
    exact a2
  · intro c hc
    exact (b6 c hc).1
  · intro hnil c hc
    rw [(b7 hnil).1]
    exact (a6 c hc).1
  · intro hnil2 hnil1
    rw [(b7 hnil2).1]
    exact (a7 hnil1).1
  · rw [b5]
    simp only []
    rw [a5]
    simp only [entry_children, entry_filter_eq _ hch1, entry_filter_eq _ hch2]

/-- C9, refuted as stated: in `sampleHeap` the unlocked model 0 already has an
item registered under `item1`, with the entry `path`.  Two recognised elements
with id `item1`, the first with the entry `path` and the second with the entry
`size`, are parsed into that model: the one item registered under the id ends
with the entries `path`, `path`, `size`, not with the first element's entries
followed by the second's. -/
theorem parse_same_id_registered_counterexample :
    oval_syschar_model_is_locked sampleHeap (some 0) = false ∧
    oval_syschar_model_get_sysitem sampleHeap (some 0) (some "item1") = some 0 ∧
    (sampleHeap.sysitems[0]?).map (fun x => x.items) = some ["path"] ∧
    oval_subtype_parse sampleCollaborators sampleScenarioElement ≠ OVAL_SUBTYPE_UNKNOWN ∧
    oval_subtype_parse sampleCollaborators sampleScenarioElement2 ≠ OVAL_SUBTYPE_UNKNOWN ∧
    xmlTextReaderGetAttribute sampleScenarioElement "id" = some "item1" ∧
    xmlTextReaderGetAttribute sampleScenarioElement2 "id" = some "item1" ∧
    (entry_children sampleScenarioElement).map sampleCollaborators.sysent_from_tag
      ++ (entry_children sampleScenarioElement2).map sampleCollaborators.sysent_from_tag
      = ["path", "size"] ∧
    ((oval_sysitem_parse_tag sampleCollaborators sampleHeap sampleScenarioElement
        { syschar_model := some 0 }).bind
      (fun r => oval_sysitem_parse_tag sampleCollaborators r.1 sampleScenarioElement2
        { syschar_model := some 0 })).map
      (fun r => (r.2, oval_syschar_model_get_sysitem r.1 (some 0) (some "item1"),
        (r.1.sysitems[0]?).map (fun x => x.items)))
      = some (1, some 0, some ["path", "path", "size"]) := by
  decide

/-- C9, amended: two recognised item elements that carry the same id, all of
whose children have a namespace, are parsed one after the other into one
unlocked model.  Both parses report success and one item is registered under
the id: one created by the first parse when the id was not registered
(allocation succeeding), the item already registered, an item of an unlocked
model, otherwise.  It has the subtype and status written by the second element
(status `exists` when the attribute is absent) and the message of the last
message child in document order (of the second element if it has one, else of
the first, else the message it had before, none for a created item); its
entries are those it had before, none for a created item, followed by the
entries of the first element and then those of the second. -/
theorem parse_same_id_twice {E : Type} (C : Collaborators E) (h : Heap E) (m : Nat)
    (md : oval_syschar_model) (reader1 reader2 : xmlNode)
    (hm : h.models[m]? = some md) (hunl : md.is_locked = false)
    (hsame : xmlTextReaderGetAttribute reader2 "id" = xmlTextReaderGetAttribute reader1 "id")
    (hs1 : oval_subtype_parse C reader1 ≠ OVAL_SUBTYPE_UNKNOWN)
    (hs2 : oval_subtype_parse C reader2 ≠ OVAL_SUBTYPE_UNKNOWN)
    (hch1 : ∀ c ∈ reader1.children, c.ns ≠ none)
    (hch2 : ∀ c ∈ reader2.children, c.ns ≠ none) :
    (h.out_of_memory = false →
      sysitem_map_get md.sysitem_map (xmlTextReaderGetAttribute reader1 "id") = none →
      ∃ (h1 h2 : Heap E) (q : Nat) (md2 : oval_syschar_model) (it : oval_sysitem E),
        oval_sysitem_parse_tag C h reader1 { syschar_model := some m } = some (h1, 1) ∧
        oval_sysitem_parse_tag C h1 reader2 { syschar_model := some m } = some (h2, 1) ∧
        h2.models[m]? = some md2 ∧
        md2.sysitem_map.filter (fun e => decide (e.1 = xmlTextReaderGetAttribute reader1 "id"))
          = [(xmlTextReaderGetAttribute reader1 "id", q)] ∧
        h2.sysitems.length = h.sysitems.length + 1 ∧
        h2.sysitems[q]? = some it ∧
        it.id = xmlTextReaderGetAttribute reader1 "id" ∧
        it.subtype = oval_subtype_parse C reader2 ∧
        it.status = oval_syschar_status_parse C reader2 "status" SYSCHAR_STATUS_EXISTS ∧
        (∀ c, (message_children reader2).getLast? = some c → it.message = some c.content) ∧
        (message_children reader2 = [] →
          ∀ c, (message_children reader1).getLast? = some c → it.message = some c.content) ∧
        (message_children reader2 = [] → message_children reader1 = [] → it.message = none) ∧
        it.items = (entry_children reader1).map C.sysent_from_tag
          ++ (entry_children reader2).map C.sysent_from_tag) ∧
    (∀ (q : Nat) (x : oval_sysitem E),
      sysitem_map_get md.sysitem_map (xmlTextReaderGetAttribute reader1 "id") = some q →
      h.sysitems[q]? = some x → oval_sysitem_is_locked h x = false →
      ∃ (h1 h2 : Heap E) (it : oval_sysitem E),
        oval_sysitem_parse_tag C h reader1 { syschar_model := some m } = some (h1, 1) ∧
        oval_sysitem_parse_tag C h1 reader2 { syschar_model := some m } = some (h2, 1) ∧
        h2.models[m]? = some md ∧
        h2.sysitems.length = h.sysitems.length ∧
        h2.sysitems[q]? = some it ∧
        it.id = x.id ∧
        it.subtype = oval_subtype_parse C reader2 ∧
        it.status = oval_syschar_status_parse C reader2 "status" SYSCHAR_STATUS_EXISTS ∧
        (∀ c, (message_children reader2).getLast? = some c → it.message = some c.content) ∧
        (message_children reader2 = [] →
          ∀ c, (message_children reader1).getLast? = some c → it.message = some c.content) ∧
        (message_children reader2 = [] → message_children reader1 = [] →
          it.message = x.message) ∧
        it.items = x.items ++ (entry_children reader1).map C.sysent_from_tag
          ++ (entry_children reader2).map C.sysent_from_tag) := by
  constructor
  · intro hmem hfresh
    obtain ⟨hN1, hN2, hN3⟩ :=
      oval_sysitem_new_facts h m md (xmlTextReaderGetAttribute reader1 "id") hm hunl hmem
    have hget : oval_sysitem_get_new h (some m) (xmlTextReaderGetAttribute reader1 "id")
        = ((oval_sysitem_new h (some m) (xmlTextReaderGetAttribute reader1 "id")).1,
            some h.sysitems.length) := by
      rw [get_new_fresh h m md _ hm hfresh, oval_sysitem_new_eq h m md _ hm hunl hmem]
    have hx0 : (oval_sysitem_new h (some m) (xmlTextReaderGetAttribute reader1 "id")).1.sysitems[
        h.sysitems.length]? = some
        { model := some m
          subtype := OVAL_SUBTYPE_UNKNOWN
          message_level := OVAL_MESSAGE_LEVEL_NONE
          id := xmlTextReaderGetAttribute reader1 "id"
          message := none
          items := []
          status := SYSCHAR_STATUS_UNKNOWN } := by
      rw [oval_sysitem_new_eq h m md _ hm hunl hmem]
      simp
    have hlook : oval_syschar_model_get_sysitem
        (oval_sysitem_new h (some m) (xmlTextReaderGetAttribute reader1 "id")).1 (some m)
        (xmlTextReaderGetAttribute reader1 "id") = some h.sysitems.length := by
      simp only [oval_syschar_model_get_sysitem, hN1]
      exact sysitem_map_get_put_self _ _ _
    obtain ⟨x1, it, r1, r2, c1, c2, c3, c4, c5, c6, c7⟩ :=
      parse_twice_core C h _ m reader1 reader2 h.sysitems.length _ hsame hs1 hs2 hch1 hch2
        hget hx0 hN3 hlook
    have hq : h.sysitems.length
        < (oval_sysitem_new h (some m) (xmlTextReaderGetAttribute reader1 "id")).1.sysitems.length := by
      rw [hN2]
      exact Nat.lt_succ_self _
    refine ⟨_, _, h.sysitems.length, _, it, r1, r2, hN1, sysitem_map_put_filter _ _ _, ?_,
      store_getElem?_of_lt _ _ _ hq, c1, c2, c3, c4, c5, c6, ?_⟩
    · simp [Heap.store, hN2]
    · rw [c7]
      simp
  · intro q x hlook0 hx hxl
    have hget : oval_sysitem_get_new h (some m) (xmlTextReaderGetAttribute reader1 "id")
        = (h, some q) := by
      simp [oval_sysitem_get_new, oval_syschar_model_get_sysitem, hm, hlook0]
    have hlook : oval_syschar_model_get_sysitem h (some m)
        (xmlTextReaderGetAttribute reader1 "id") = some q := by
      simp [oval_syschar_model_get_sysitem, hm, hlook0]
    have hq : q < h.sysitems.length := by
      rcases List.getElem?_eq_some.mp hx with ⟨hq, _⟩
      exact hq
    obtain ⟨x1, it, r1, r2, c1, c2, c3, c4, c5, c6, c7⟩ :=
      parse_twice_core C h h m reader1 reader2 q x hsame hs1 hs2 hch1 hch2 hget hx hxl hlook
    refine ⟨_, _, it, r1, r2, hm, ?_, store_getElem?_of_lt _ _ _ hq, c1, c2, c3, c4, c5, c6, c7⟩
    simp [Heap.store]

/-- C9 amended, on `sampleHeap`: `sampleElementA` then `sampleElementB`, both
with id `item7`, parsed into the unlocked model 2, where the id is not
registered. -/
theorem parse_same_id_twice_witness :
    sampleHeap.models[2]? = some { is_locked := false, sysitem_map := [] } ∧
    xmlTextReaderGetAttribute sampleElementB "id" = xmlTextReaderGetAttribute sampleElementA "id" ∧
    oval_subtype_parse sampleCollaborators sampleElementA ≠ OVAL_SUBTYPE_UNKNOWN ∧
    oval_subtype_parse sampleCollaborators sampleElementB ≠ OVAL_SUBTYPE_UNKNOWN ∧
    (∀ c ∈ sampleElementA.children, c.ns ≠ none) ∧
    (∀ c ∈ sampleElementB.children, c.ns ≠ none) ∧
    sampleHeap.out_of_memory = false ∧
    ∃ (h1 h2 : Heap String) (q : Nat) (md2 : oval_syschar_model) (it : oval_sysitem String),
      oval_sysitem_parse_tag sampleCollaborators sampleHeap sampleElementA
        { syschar_model := some 2 } = some (h1, 1) ∧
      oval_sysitem_parse_tag sampleCollaborators h1 sampleElementB
        { syschar_model := some 2 } = some (h2, 1) ∧
      h2.models[2]? = some md2 ∧
      md2.sysitem_map.filter (fun e => decide (e.1 = xmlTextReaderGetAttribute sampleElementA "id"))
        = [(xmlTextReaderGetAttribute sampleElementA "id", q)] ∧
      h2.sysitems.length = sampleHeap.sysitems.length + 1 ∧
      h2.sysitems[q]? = some it ∧
      it.id = xmlTextReaderGetAttribute sampleElementA "id" ∧
      it.subtype = oval_subtype_parse sampleCollaborators sampleElementB ∧
      it.status = oval_syschar_status_parse sampleCollaborators sampleElementB "status"
        SYSCHAR_STATUS_EXISTS ∧
      (∀ c, (message_children sampleElementB).getLast? = some c → it.message = some c.content) ∧
      (message_children sampleElementB = [] →
        ∀ c, (message_children sampleElementA).getLast? = some c → it.message = some c.content) ∧
      (message_children sampleElementB = [] → message_children sampleElementA = [] →
        it.message = none) ∧
      it.items = (entry_children sampleElementA).map sampleCollaborators.sysent_from_tag
        ++ (entry_children sampleElementB).map sampleCollaborators.sysent_from_tag :=
  ⟨rfl, rfl, by decide, by decide, by simp [sampleElementA, xmlNode.children, xmlNode.ns],
    by simp [sampleElementB, xmlNode.children, xmlNode.ns], rfl,
    (parse_same_id_twice sampleCollaborators sampleHeap 2 _ sampleElementA sampleElementB
      rfl rfl rfl (by decide) (by decide)
      (by simp [sampleElementA, xmlNode.children, xmlNode.ns])
      (by simp [sampleElementB, xmlNode.children, xmlNode.ns])).1 rfl rfl⟩

/-! ## Round trip -/

theorem xmlAddChild_ns (parent child : xmlNode) : (xmlAddChild parent child).ns = parent.ns := by
  cases parent
  rfl

theorem xmlAddChild_children (parent child : xmlNode) :
    (xmlAddChild parent child).children = parent.children ++ [child] := by
  cases parent
  rfl


/-- The serializer on an item of known subtype, in closed form: one element is
linked under the parent; it is in the family namespace, which it declares, is
named after the subtype, carries the attributes id and status, and has as
children the message child, if the item has a message, followed by what the
entry collaborator emits for the entries in order.  The message child holds
the message as `xmlNewChild` stores it, and is in the namespace the search
returned, the family namespace of the item element when it returned `NULL`. -/
theorem oval_sysitem_to_dom_eq {E : Type} (C : Collaborators E) (h : Heap E) (p : Nat)
    (it : oval_sysitem E) (doc : xmlDoc) (tag_parent : xmlNode)
    (hit : h.sysitems[p]? = some it) (hs : it.subtype ≠ OVAL_SUBTYPE_UNKNOWN) :
    oval_sysitem_to_dom C h (some p) doc tag_parent =
      xmlAddChild tag_parent
        (it.items.foldl (fun tag item => C.oval_sysent_to_dom item doc tag)
          (xmlNode.element
            (some (OVAL_SYSCHAR_NAMESPACE ++ "#"
              ++ C.oval_family_get_text (C.oval_subtype_get_family it.subtype)))
            [OVAL_SYSCHAR_NAMESPACE ++ "#"
              ++ C.oval_family_get_text (C.oval_subtype_get_family it.subtype)]
            (C.oval_subtype_get_text it.subtype ++ "_item")
            [("id", it.id.getD ""), ("status", C.oval_syschar_status_get_text it.status)]
            ""
            (match it.message with
             | some message =>
               [xmlNode.element
                 (match xmlSearchNsByHref doc tag_parent OVAL_SYSCHAR_NAMESPACE with
                  | some href => some href
                  | none => some (OVAL_SYSCHAR_NAMESPACE ++ "#"
                      ++ C.oval_family_get_text (C.oval_subtype_get_family it.subtype)))
                 [] "message" [("level", C.oval_message_level_text it.message_level)]
                 (C.xmlStringGetNodeList message) []]
             | none => []))) := by
  have hs0 : ¬ it.subtype = 0 := hs
  simp only [oval_sysitem_to_dom, hit, oval_sysitem_get_subtype, oval_sysitem_get_id,
    oval_sysitem_get_status, oval_sysitem_get_message, oval_sysitem_get_message_level,
    oval_sysitem_get_items, ne_eq, hs0, not_false_eq_true, if_true]
  cases it.message <;> rfl

theorem parse_subtag_unlocked {E : Type} (C : Collaborators E) (context : oval_parser_context)
    (h : Heap E) (p : Nat) (it : oval_sysitem E) (child : xmlNode)
    (hit : h.sysitems[p]? = some it) (hunl : oval_syschar_model_is_locked h it.model = false)
    (hns : child.ns ≠ none) :
    _oval_sysitem_parse_subtag C h child context (some p)
      = some (h.store p (subtag_effect C it child), 1) := by
  have hp : p < h.sysitems.length := by
    rcases List.getElem?_eq_some.mp hit with ⟨hp, _⟩
    exact hp
  have hx := parse_subtag_store C context h p hp it child hunl hns
  rw [store_same h p it hit] at hx
  exact hx

/-- What `_oval_sysitem_parse_subtag` does, on an item of an unlocked model,
with a child element that has a namespace.  A child in the reserved
system-characteristics namespace makes the message level the value of its
level attribute (info when the attribute is absent) and the message its text
content, replacing any prior message, and leaves the entries alone; a child in
another namespace goes to the entry parser, and the one entry it yields is
appended at the end of the entries, message and level staying as they were.
Both report the code 1. -/
theorem parse_subtag_dispatch_of_namespace {E : Type} (C : Collaborators E)
    (context : oval_parser_context) (h : Heap E) (p : Nat) (it : oval_sysitem E)
    (child : xmlNode) (hit : h.sysitems[p]? = some it)
    (hunl : oval_sysitem_is_locked h it = false) :
    (child.ns = some NAMESPACE_OVALSYS →
      _oval_sysitem_parse_subtag C h child context (some p) =
        some (h.store p { it with
            message_level := oval_message_level_parse C child "level" OVAL_MESSAGE_LEVEL_INFO
            message := some child.content }, 1) ∧
      (xmlTextReaderGetAttribute child "level" = none →
        oval_message_level_parse C child "level" OVAL_MESSAGE_LEVEL_INFO
          = OVAL_MESSAGE_LEVEL_INFO) ∧
      (∀ text level, xmlTextReaderGetAttribute child "level" = some text →
        C.message_level_from_text text = some level →
        oval_message_level_parse C child "level" OVAL_MESSAGE_LEVEL_INFO = level)) ∧
    (∀ u, child.ns = some u → u ≠ NAMESPACE_OVALSYS →
      _oval_sysitem_parse_subtag C h child context (some p) =
        some (h.store p { it with items := it.items ++ [C.sysent_from_tag child] }, 1)) := by
  constructor
  · intro hns
    have hrun := parse_subtag_unlocked C context h p it child hit hunl
      (by rw [hns]; exact Option.some_ne_none _)
    have e1 : subtag_effect C it child = { it with
        message_level := oval_message_level_parse C child "level" OVAL_MESSAGE_LEVEL_INFO
        message := some child.content } := by
      simp [subtag_effect, hns]
    rw [hrun, e1]
    refine ⟨rfl, ?_, ?_⟩
    · intro habs
      simp [oval_message_level_parse, habs]
    · intro text level hpres htab
      simp [oval_message_level_parse, hpres, htab]
  · intro u hu hne
    have hrun := parse_subtag_unlocked C context h p it child hit hunl
      (by rw [hu]; exact Option.some_ne_none _)
    have hns : child.ns ≠ some NAMESPACE_OVALSYS := by
      rw [hu]
      exact fun heq => hne (Option.some.inj heq)
    have e1 : subtag_effect C it child
        = { it with items := it.items ++ [C.sysent_from_tag child] } := by
      simp [subtag_effect, hns]
    rw [hrun, e1]

/-- C12, the failing input: the child element `note`, which has no namespace,
is dispatched to the item at pointer 0 of `sampleHeap`, whose model is not
locked.  The namespace of the child is not the reserved one, so the claim
sends it to the entry parser; `xmlTextReaderNamespaceUri` returns `NULL` for
it and line 269 hands that `NULL` to `strcmp`, so the call has no defined
result and nothing is appended. -/
theorem parse_subtag_null_namespace_undefined :
    (sampleHeap.sysitems[0]?).map (fun x => oval_sysitem_is_locked sampleHeap x) = some false ∧
    xmlTextReaderNamespaceUri sampleBareChild = none ∧
    xmlTextReaderNamespaceUri sampleBareChild ≠ some NAMESPACE_OVALSYS ∧
    _oval_sysitem_parse_subtag sampleCollaborators sampleHeap sampleBareChild
      { syschar_model := some 0 } (some 0) = none := by
  decide

/-! ## Subtype and status of a parsed element -/

/-- C13: for an item whose subtype is `OVAL_SUBTYPE_UNKNOWN`, whatever its other
fields and entries and whatever the entry collaborator, the serializer returns
the parent node as it was: no element is emitted and no entry is serialized. -/
theorem oval_sysitem_to_dom_unknown_subtype {E : Type} (C : Collaborators E) (h : Heap E)
    (p : Nat) (it : oval_sysitem E) (doc : xmlDoc) (tag_parent : xmlNode)
    (hit : h.sysitems[p]? = some it) (hs : it.subtype = OVAL_SUBTYPE_UNKNOWN) :
    oval_sysitem_to_dom C h (some p) doc tag_parent = tag_parent ∧
    (oval_sysitem_to_dom C h (some p) doc tag_parent).children = tag_parent.children := by
  have hs0 : it.subtype = 0 := hs
  have e1 : oval_sysitem_to_dom C h (some p) doc tag_parent = tag_parent := by
    simp [oval_sysitem_to_dom, hit, oval_sysitem_get_subtype, hs0]
  rw [e1]
  exact ⟨rfl, rfl⟩

/-- C13, on `unknownSubtypeHeap`: the item has one entry and no subtype yet. -/
theorem oval_sysitem_to_dom_unknown_subtype_witness :
    unknownSubtypeHeap.sysitems[0]? = some unknownSubtypeItem ∧
    unknownSubtypeItem.subtype = OVAL_SUBTYPE_UNKNOWN ∧
    (oval_sysitem_to_dom sampleCollaborators unknownSubtypeHeap (some 0) { nsInScope := [] }
      sampleParent).children = sampleParent.children :=
  ⟨rfl, rfl,
    (oval_sysitem_to_dom_unknown_subtype sampleCollaborators unknownSubtypeHeap 0
      unknownSubtypeItem { nsInScope := [] } sampleParent rfl rfl).2⟩

theorem entries_nested_fold {E : Type} (C : Collaborators E) (hnest : EntryEmitsNested C)
    (doc : xmlDoc) (items : List E) :
    ∀ (ns : Option String) (nsDef : List String) (name : String)
      (properties : List (String × String)) (content : String) (children : List xmlNode),
      ∃ xs, items.foldl (fun tag item => C.oval_sysent_to_dom item doc tag)
            (xmlNode.element ns nsDef name properties content children)
          = xmlNode.element ns nsDef name properties content (children ++ xs) := by
  induction items with
  | nil =>
    intro ns nsDef name properties content children
    exact ⟨[], by simp⟩
  | cons e rest ih =>
    intro ns nsDef name properties content children
    obtain ⟨x, hx⟩ := hnest e doc (xmlNode.element ns nsDef name properties content children)
    obtain ⟨xs, h1⟩ := ih ns nsDef name properties content (children ++ x)
    refine ⟨x ++ xs, ?_⟩
    rw [List.foldl_cons, hx]
    simp only [xmlNode.ns, xmlNode.nsDef, xmlNode.name, xmlNode.properties, xmlNode.content,
      xmlNode.children]
    rw [h1, List.append_assoc]

/-- C14: for an item with a known subtype, the entry collaborator nesting its
emissions under the element it is handed, the serializer links exactly one new
child under the parent; its local name is the text of the subtype followed by
`_item`, its namespace URI the base system-characteristics namespace followed
by `#` and the family text of the subtype, and its attributes are id, with the
id of the item verbatim, and status, with the text of the item's status. -/
theorem oval_sysitem_to_dom_element {E : Type} (C : Collaborators E) (h : Heap E) (p : Nat)
    (it : oval_sysitem E) (doc : xmlDoc) (tag_parent : xmlNode)
    (hit : h.sysitems[p]? = some it) (hs : it.subtype ≠ OVAL_SUBTYPE_UNKNOWN)
    (hnest : EntryEmitsNested C) :
    ∃ elem : xmlNode,
      oval_sysitem_to_dom C h (some p) doc tag_parent = xmlAddChild tag_parent elem ∧
      (oval_sysitem_to_dom C h (some p) doc tag_parent).children = tag_parent.children ++ [elem] ∧
      elem.name = C.oval_subtype_get_text it.subtype ++ "_item" ∧
      elem.ns = some (OVAL_SYSCHAR_NAMESPACE ++ "#"
        ++ C.oval_family_get_text (C.oval_subtype_get_family it.subtype)) ∧
      elem.properties =
        [("id", it.id.getD ""), ("status", C.oval_syschar_status_get_text it.status)] ∧
      (∀ s, it.id = some s → xmlTextReaderGetAttribute elem "id" = some s) ∧
      xmlTextReaderGetAttribute elem "status"
        = some (C.oval_syschar_status_get_text it.status) := by
  obtain ⟨xs, hfold⟩ := entries_nested_fold C hnest doc it.items
    (some (OVAL_SYSCHAR_NAMESPACE ++ "#"
      ++ C.oval_family_get_text (C.oval_subtype_get_family it.subtype)))
    [OVAL_SYSCHAR_NAMESPACE ++ "#"
      ++ C.oval_family_get_text (C.oval_subtype_get_family it.subtype)]
    (C.oval_subtype_get_text it.subtype ++ "_item")
    [("id", it.id.getD ""), ("status", C.oval_syschar_status_get_text it.status)]
    ""
    (match it.message with
     | some message =>
       [xmlNode.element
         (match xmlSearchNsByHref doc tag_parent OVAL_SYSCHAR_NAMESPACE with
          | some href => some href
          | none => some (OVAL_SYSCHAR_NAMESPACE ++ "#"
              ++ C.oval_family_get_text (C.oval_subtype_get_family it.subtype)))
         [] "message" [("level", C.oval_message_level_text it.message_level)]
         (C.xmlStringGetNodeList message) []]
     | none => [])
  rw [oval_sysitem_to_dom_eq C h p it doc tag_parent hit hs, hfold]
  have hne : ("id" : String) ≠ "status" := by decide
  refine ⟨_, rfl, xmlAddChild_children _ _, rfl, rfl, rfl, ?_, ?_⟩
  · intro s hid
    simp [xmlTextReaderGetAttribute, xmlNode.properties, xmlGetProp, hid]
  · simp [xmlTextReaderGetAttribute, xmlNode.properties, xmlGetProp, hne]

/-- C14, on `sampleHeap`: the item at pointer 2 under `sampleParent`. -/
theorem oval_sysitem_to_dom_element_witness :
    sampleHeap.sysitems[2]? = some sampleFullItem ∧
    sampleFullItem.subtype ≠ OVAL_SUBTYPE_UNKNOWN ∧
    EntryEmitsNested sampleCollaborators ∧
    ∃ elem : xmlNode,
      oval_sysitem_to_dom sampleCollaborators sampleHeap (some 2) { nsInScope := [] } sampleParent
        = xmlAddChild sampleParent elem ∧
      (oval_sysitem_to_dom sampleCollaborators sampleHeap (some 2) { nsInScope := [] }
        sampleParent).children = sampleParent.children ++ [elem] ∧
      elem.name = sampleCollaborators.oval_subtype_get_text sampleFullItem.subtype ++ "_item" ∧
      elem.ns = some (OVAL_SYSCHAR_NAMESPACE ++ "#"
        ++ sampleCollaborators.oval_family_get_text
            (sampleCollaborators.oval_subtype_get_family sampleFullItem.subtype)) ∧
      elem.properties =
        [("id", sampleFullItem.id.getD ""),
         ("status", sampleCollaborators.oval_syschar_status_get_text sampleFullItem.status)] ∧
      (∀ s, sampleFullItem.id = some s → xmlTextReaderGetAttribute elem "id" = some s) ∧
      xmlTextReaderGetAttribute elem "status"
        = some (sampleCollaborators.oval_syschar_status_get_text sampleFullItem.status) :=
  ⟨rfl, by decide,
    fun e _ parent => ⟨[xmlNode.element parent.ns [] e [] "" []], by cases parent; rfl⟩,
    oval_sysitem_to_dom_element sampleCollaborators sampleHeap 2 sampleFullItem
      { nsInScope := [] } sampleParent rfl (by decide)
      (fun e _ parent => ⟨[xmlNode.element parent.ns [] e [] "" []], by cases parent; rfl⟩)⟩

/-- C15, the failing inputs.  (1) The item at pointer 1 of `sampleHeap` has a
known subtype and the message `permission denied`; serialized under a parent
from which the system-characteristics namespace is not found, the search of
line 393 returns `NULL`, line 420 hands it to `xmlNewChild` unchecked, and
the message child is in the family namespace of the item element, not in the
system-characteristics namespace.  (2) An item with a known subtype and the
message `a &amp; b`, serialized under `sampleParent`: the message child holds
`a & b`, not the message text, since `xmlNewChild` reads its content as XML
character data. -/
theorem oval_sysitem_to_dom_message_child_defects :
    ((sampleHeap.sysitems[1]?).map (fun x => (x.subtype, x.message))
        = some (7006, some "permission denied") ∧
      xmlSearchNsByHref { nsInScope := [] } sampleBareParent OVAL_SYSCHAR_NAMESPACE = none ∧
      (oval_sysitem_to_dom sampleCollaborators sampleHeap (some 1) { nsInScope := [] }
          sampleBareParent).children.map
        (fun elem => elem.children.map (fun c => (c.ns, c.name, c.content)))
        = [[(some (OVAL_SYSCHAR_NAMESPACE ++ "#unix"), "message", "permission denied")]] ∧
      some (OVAL_SYSCHAR_NAMESPACE ++ "#unix") ≠ some OVAL_SYSCHAR_NAMESPACE) ∧
    (oval_sysitem_set_message levelOnlyHeap (some 0) (char_ptr.buffer "a &amp; b")).map
      (fun hh =>
        ((hh.sysitems[0]?).map (fun x => (x.subtype, x.message)),
          (oval_sysitem_to_dom sampleCollaborators hh (some 0) { nsInScope := [] }
              sampleParent).children.map
            (fun elem => elem.children.map (fun c => (c.ns, c.name, c.content)))))
      = some (some (7006, some "a &amp; b"),
          [[(some OVAL_SYSCHAR_NAMESPACE, "message", "a & b")]]) := by
  refine ⟨?_, ?_⟩ <;> decide

theorem entries_emit_fold {E : Type} (C : Collaborators E)
    (emit : E → xmlDoc → Option String → xmlNode)
    (hemit : ∀ (e : E) (d : xmlDoc) (parent : xmlNode),
      C.oval_sysent_to_dom e d parent = xmlAddChild parent (emit e d parent.ns))
    (doc : xmlDoc) (ns : Option String) (nsDef : List String) (name : String)
    (properties : List (String × String)) (content : String) (items : List E) :
    ∀ children : List xmlNode,
      items.foldl (fun tag item => C.oval_sysent_to_dom item doc tag)
          (xmlNode.element ns nsDef name properties content children)
        = xmlNode.element ns nsDef name properties content
            (children ++ items.map (fun e => emit e doc ns)) := by
  induction items with
  | nil =>
    intro children
    simp
  | cons e rest ih =>
    intro children
    rw [List.foldl_cons, hemit]
    simp only [xmlAddChild, xmlNode.ns]
    rw [ih (children ++ [emit e doc ns])]
    simp

/-- C16: for an item with a known subtype and entries E1..En, the element
emitted is the element built from the fields, handed to the entry
collaborator once for each entry, in stored order.  When the collaborator
emits one element per entry, linked under the element it is handed and
determined by the entry, the document and the namespace of that element, the
children after the message child are its emissions for E1, ..., En in that
order, one for each entry. -/
theorem oval_sysitem_to_dom_entries {E : Type} (C : Collaborators E) (h : Heap E) (p : Nat)
    (it : oval_sysitem E) (doc : xmlDoc) (tag_parent : xmlNode)
    (emit : E → xmlDoc → Option String → xmlNode)
    (hit : h.sysitems[p]? = some it) (hs : it.subtype ≠ OVAL_SUBTYPE_UNKNOWN)
    (hemit : ∀ (e : E) (d : xmlDoc) (parent : xmlNode),
      C.oval_sysent_to_dom e d parent = xmlAddChild parent (emit e d parent.ns)) :
    ∃ head elem : xmlNode,
      oval_sysitem_to_dom C h (some p) doc tag_parent = xmlAddChild tag_parent elem ∧
      (oval_sysitem_to_dom C h (some p) doc tag_parent).children = tag_parent.children ++ [elem] ∧
      elem = it.items.foldl (fun tag item => C.oval_sysent_to_dom item doc tag) head ∧
      head.children.length = (if it.message.isSome then 1 else 0) ∧
      elem.children = head.children ++ it.items.map (fun e => emit e doc
        (some (OVAL_SYSCHAR_NAMESPACE ++ "#"
          ++ C.oval_family_get_text (C.oval_subtype_get_family it.subtype)))) ∧
      elem.children.drop head.children.length = it.items.map (fun e => emit e doc
        (some (OVAL_SYSCHAR_NAMESPACE ++ "#"
          ++ C.oval_family_get_text (C.oval_subtype_get_family it.subtype)))) ∧
      (elem.children.drop head.children.length).length = it.items.length := by
  have hfold := entries_emit_fold C emit hemit doc
    (some (OVAL_SYSCHAR_NAMESPACE ++ "#"
      ++ C.oval_family_get_text (C.oval_subtype_get_family it.subtype)))
    [OVAL_SYSCHAR_NAMESPACE ++ "#"
      ++ C.oval_family_get_text (C.oval_subtype_get_family it.subtype)]
    (C.oval_subtype_get_text it.subtype ++ "_item")
    [("id", it.id.getD ""), ("status", C.oval_syschar_status_get_text it.status)]
    "" it.items
    (match it.message with
     | some message =>
       [xmlNode.element
         (match xmlSearchNsByHref doc tag_parent OVAL_SYSCHAR_NAMESPACE with
          | some href => some href
          | none => some (OVAL_SYSCHAR_NAMESPACE ++ "#"
              ++ C.oval_family_get_text (C.oval_subtype_get_family it.subtype)))
         [] "message" [("level", C.oval_message_level_text it.message_level)]
         (C.xmlStringGetNodeList message) []]
     | none => [])
  rw [oval_sysitem_to_dom_eq C h p it doc tag_parent hit hs]
  refine ⟨_, _, rfl, xmlAddChild_children _ _, rfl, ?_, ?_, ?_, ?_⟩
  · cases it.message <;> rfl
  · rw [hfold]
    rfl
  · rw [hfold]
    simp [xmlNode.children]
  · rw [hfold]
    simp [xmlNode.children]

/-- C16, on `sampleHeap`: the item at pointer 2 has the entries `path` and
`size`. -/
theorem oval_sysitem_to_dom_entries_witness :
    sampleHeap.sysitems[2]? = some sampleFullItem ∧
    sampleFullItem.subtype ≠ OVAL_SUBTYPE_UNKNOWN ∧
    (∀ (e : String) (d : xmlDoc) (parent : xmlNode),
      sampleCollaborators.oval_sysent_to_dom e d parent
        = xmlAddChild parent (xmlNode.element parent.ns [] e [] "" [])) ∧
    ∃ head elem : xmlNode,
      oval_sysitem_to_dom sampleCollaborators sampleHeap (some 2) { nsInScope := [] } sampleParent
        = xmlAddChild sampleParent elem ∧
      (oval_sysitem_to_dom sampleCollaborators sampleHeap (some 2) { nsInScope := [] }
        sampleParent).children = sampleParent.children ++ [elem] ∧
      elem = sampleFullItem.items.foldl
        (fun tag item => sampleCollaborators.oval_sysent_to_dom item { nsInScope := [] } tag) head ∧
      head.children.length = (if sampleFullItem.message.isSome then 1 else 0) ∧
      elem.children = head.children ++ sampleFullItem.items.map
        (fun e => xmlNode.element (some (OVAL_SYSCHAR_NAMESPACE ++ "#"
          ++ sampleCollaborators.oval_family_get_text
              (sampleCollaborators.oval_subtype_get_family sampleFullItem.subtype))) [] e [] "" []) ∧
      elem.children.drop head.children.length = sampleFullItem.items.map
        (fun e => xmlNode.element (some (OVAL_SYSCHAR_NAMESPACE ++ "#"
          ++ sampleCollaborators.oval_family_get_text
              (sampleCollaborators.oval_subtype_get_family sampleFullItem.subtype))) [] e [] "" []) ∧
      (elem.children.drop head.children.length).length = sampleFullItem.items.length :=
  ⟨rfl, by decide, fun _ _ _ => rfl,
    oval_sysitem_to_dom_entries sampleCollaborators sampleHeap 2 sampleFullItem
      { nsInScope := [] } sampleParent (fun e _ ns => xmlNode.element ns [] e [] "" [])
      rfl (by decide) (fun _ _ _ => rfl)⟩

/-! ## Clone: entries, and clone into a locked model -/

/-- C17: for a source item with entries E1..En and an unlocked new model,
allocation succeeding, clone returns a fresh item whose entries are the entry
collaborator's clones of E1, ..., En into the new model, in that order; the
source item is as it was before the call. -/
theorem oval_sysitem_clone_entries {E : Type} (C : Collaborators E) (h : Heap E) (m : Nat)
    (md : oval_syschar_model) (old_data : Nat) (old : oval_sysitem E)
    (hold : h.sysitems[old_data]? = some old) (hm : h.models[m]? = some md)
    (hunl : md.is_locked = false) (hmem : h.out_of_memory = false) :
    ∃ h1 q new, oval_sysitem_clone C h (some m) old_data = some (h1, some q) ∧
      h.sysitems[q]? = none ∧
      h1.sysitems[q]? = some new ∧
      new.items = old.items.map (C.oval_sysent_clone (some m)) ∧
      h1.sysitems[old_data]? = some old := by
  have hlen : h.sysitems.length < (oval_sysitem_new h (some m) old.id).1.sysitems.length := by
    rw [oval_sysitem_new_eq h m md old.id hm hunl hmem]
    simp
  have hp : old_data < h.sysitems.length := by
    rcases List.getElem?_eq_some.mp hold with ⟨hp, _⟩
    exact hp
  refine ⟨_, h.sysitems.length, _,
    oval_sysitem_clone_eq C h m md old_data old hold hm hunl hmem, by simp,
    store_getElem?_of_lt _ _ _ hlen, rfl, ?_⟩
  rw [store_getElem?_ne _ _ _ _ (Nat.ne_of_gt hp), oval_sysitem_new_eq h m md old.id hm hunl hmem]
  simp only []
  rw [List.getElem?_append_left hp]
  exact hold

/-- C17, on `sampleHeap`: the item at pointer 2, with the entries `path` and
`size`, is cloned into the unlocked model 2. -/
theorem oval_sysitem_clone_entries_witness :
    sampleHeap.sysitems[2]? = some sampleFullItem ∧
    sampleHeap.models[2]? = some { is_locked := false, sysitem_map := [] } ∧
    sampleHeap.out_of_memory = false ∧
    ∃ h1 q new, oval_sysitem_clone sampleCollaborators sampleHeap (some 2) 2 = some (h1, some q) ∧
      sampleHeap.sysitems[q]? = none ∧
      h1.sysitems[q]? = some new ∧
      new.items = sampleFullItem.items.map (sampleCollaborators.oval_sysent_clone (some 2)) ∧
      h1.sysitems[2]? = some sampleFullItem :=
  ⟨rfl, rfl, rfl,
    oval_sysitem_clone_entries sampleCollaborators sampleHeap 2 _ 2 sampleFullItem rfl rfl rfl rfl⟩

theorem add_items_null {E : Type} (f : E → E) (es : List E) (h : Heap E) :
    es.foldl (fun hh e => oval_sysitem_add_item hh none (f e)) h = h := by
  induction es with
  | nil => rfl
  | cons e rest ih =>
    rw [List.foldl_cons]
    exact ih

/-- C18: for a source item, with or without a message and with any entries,
clone into a locked new model returns `NULL` and leaves the heap, hence the
registry of the new model, as it was: creation is refused, and every setter
and `add_item` call on the `NULL` result changes nothing. -/
theorem oval_sysitem_clone_locked {E : Type} (C : Collaborators E) (h : Heap E) (m : Nat)
    (old_data : Nat) (old : oval_sysitem E)
    (hold : h.sysitems[old_data]? = some old)
    (hlock : oval_syschar_model_is_locked h (some m) = true) :
    oval_sysitem_clone C h (some m) old_data = some (h, none) ∧
    (oval_sysitem_clone C h (some m) old_data).map (fun r => r.2) = some none ∧
    (oval_sysitem_clone C h (some m) old_data).map (fun r => r.1.models[m]?)
      = some h.models[m]? ∧
    (∀ key, (oval_sysitem_clone C h (some m) old_data).map
        (fun r => oval_syschar_model_get_sysitem r.1 (some m) key)
      = some (oval_syschar_model_get_sysitem h (some m) key)) ∧
    oval_sysitem_new h (some m) old.id = (h, none) ∧
    (∀ (hh : Heap E) (call : MutatorCall E), MutatorCall.apply hh none call = some hh) := by
  have hnew : oval_sysitem_new h (some m) old.id = (h, none) := by
    simp [oval_sysitem_new, hlock]
  have e1 : oval_sysitem_clone C h (some m) old_data = some (h, none) := by
    simp only [oval_sysitem_clone, hold, oval_sysitem_get_id, hnew, oval_sysitem_get_message,
      oval_sysitem_get_message_level, oval_sysitem_get_status, oval_sysitem_get_subtype,
      oval_sysitem_get_items]
    cases old.message <;>
      simp [oval_sysitem_set_message, oval_sysitem_set_message_level, oval_sysitem_set_status,
        oval_sysitem_set_subtype, add_items_null]
  rw [e1]
  refine ⟨rfl, rfl, rfl, fun _ => rfl, hnew, ?_⟩
  intro hh call
  cases call <;> rfl

/-- C18, on `sampleHeap`: the item at pointer 2 is cloned into the locked
model 1. -/
theorem oval_sysitem_clone_locked_witness :
    sampleHeap.sysitems[2]? = some sampleFullItem ∧
    oval_syschar_model_is_locked sampleHeap (some 1) = true ∧
    oval_sysitem_clone sampleCollaborators sampleHeap (some 1) 2 = some (sampleHeap, none) :=
  ⟨rfl, rfl,
    (oval_sysitem_clone_locked sampleCollaborators sampleHeap 1 2 sampleFullItem rfl rfl).1⟩


/-! ## Buffer sizes of the serializer -/

theorem strlen_append (a b : String) : strlen (a ++ b) = strlen a + strlen b := by
  cases a with
  | mk as =>
    cases b with
    | mk bs =>
      show String.utf8ByteSize (String.mk (as ++ bs)) = _
      simp [strlen]

/-- C19: the two strings the serializer composes fit their buffers.  For every
subtype text, the text followed by `_item`, with its terminator, takes exactly
`strlen(subtype_text) + 6` bytes, the size of `tagname`; for every family text,
the namespace literal followed by `#` and the family text, with its
terminator, takes one byte less than
`sizeof(syschar_namespace) + strlen(family) + 2`, the size of
`family_namespace`, `OVAL_SYSCHAR_NAMESPACE` being the literal of line 395. -/
theorem sprintf_fits_buffers :
    OVAL_SYSCHAR_NAMESPACE = syschar_namespace ∧
    (∀ subtype_text : String,
      sprintf_stores (subtype_text ++ "_item") = strlen subtype_text + 6 ∧
      sprintf_stores (subtype_text ++ "_item") = tagname_size subtype_text) ∧
    (∀ family : String,
      sprintf_stores (OVAL_SYSCHAR_NAMESPACE ++ "#" ++ family) ≤ family_namespace_size family ∧
      sprintf_stores (OVAL_SYSCHAR_NAMESPACE ++ "#" ++ family) + 1
        = family_namespace_size family) := by
  have h5 : strlen "_item" = 5 := by decide
  have h1 : strlen "#" = 1 := by decide
  have hN : strlen OVAL_SYSCHAR_NAMESPACE = strlen syschar_namespace := rfl
  refine ⟨rfl, fun subtype_text => ?_, fun family => ?_⟩
  · have e : strlen (subtype_text ++ "_item") = strlen subtype_text + 5 := by
      rw [strlen_append, h5]
    unfold sprintf_stores tagname_size
    rw [e]
    exact ⟨rfl, rfl⟩
  · have e : strlen (OVAL_SYSCHAR_NAMESPACE ++ "#" ++ family)
        = strlen syschar_namespace + 1 + strlen family := by
      rw [strlen_append, strlen_append, h1, hN]
    unfold sprintf_stores family_namespace_size sizeof_syschar_namespace
    rw [e]
    constructor <;> omega

end OvalSysItem
